import Mathlib

/-!
# TokoKu POS — payment/inventory workflow, shallow embedding

This file embeds the TokoKu point-of-sale payment-status reconciliation and
inventory workflow (Next.js route handlers over a Prisma store) as pure Lean
functions over an explicit database state, and proves the specification
claims about it.

Embedded routes:
* `POST /api/payments/webhook`   — `xenditWebhook`   (src/unnamed/part_008)
* `POST` payment status check    — `checkPaymentStatus` (src/unnamed/part_006)
* `POST /api/transactions`       — `createTransaction`  (src/unnamed/part_002)
* `POST /api/inventory`          — `inventoryPOST`   (src/src/app/api/inventory/route.ts)
* `GET /api/reports` low-stock pieces — `overviewLowStockCount`,
  `inventoryLowStockProducts` (src/unnamed/part_005)

Modelling conventions: the Prisma store is a `DB` record of lists; prisma
`findUnique`/`findFirst` become `List.find?`; `update` maps over the list
keyed by id; `create` appends.  JS numbers that hold integral money/stock
values become `Int`.  Session/auth guards and request parsing are outside
the embedded fragment (they reject before any state is touched).  The
random transaction number and id, and the gateway's invoice status, are
nondeterministic inputs and are passed as parameters.
-/

namespace Tokoku

/-- Prisma enum `PaymentStatus`. -/
inductive PaymentStatus
  | PENDING
  | PAID
  | FAILED
  | EXPIRED
deriving DecidableEq, Repr

/-- Prisma enum `PaymentMethod`. -/
inductive PaymentMethod
  | CASH
  | XENDIT_QRIS
  | XENDIT_EWALLET
  | XENDIT_VIRTUAL_ACCOUNT
deriving DecidableEq, Repr

/-- Inventory log type tag (SALE / RESTOCK / ADJUSTMENT / RETURN). -/
inductive LogType
  | SALE
  | RESTOCK
  | ADJUSTMENT
  | RETURN
deriving DecidableEq, Repr

/-- A product row: stock counter, low-stock threshold, active flag. -/
structure Product where
  id : String
  name : String
  stock : Int
  minStock : Int
  isActive : Bool
  categoryId : String
deriving DecidableEq, Repr

/-- A transaction line item (product reference + quantity + price snapshot). -/
structure TransactionItem where
  productId : String
  quantity : Int
  unitPrice : Int
  totalPrice : Int
deriving DecidableEq, Repr

/-- A transaction row, with its line items included as in the handlers'
`include: { items: true }` reads. -/
structure Transaction where
  id : String
  transactionNumber : String
  paymentMethod : PaymentMethod
  paymentStatus : PaymentStatus
  xenditPaymentId : Option String
  cashierId : String
  finalAmount : Int
  items : List TransactionItem
deriving DecidableEq, Repr

/-- An inventory-log row (append-only audit trail). -/
structure InventoryLog where
  productId : String
  type : LogType
  quantity : Int
  previousStock : Int
  newStock : Int
  reason : String
  createdBy : String
deriving DecidableEq, Repr

/-- A notification record, tagged by the helper that created it
(lib/notifications, src/unnamed/part_001). -/
inductive Notification
  | lowStock (userId productName : String) (currentStock : Int)
  | newOrder (userId transactionNumber : String) (amount : Int)
  | paymentReceived (userId transactionNumber : String) (amount : Int)
  | paymentFailed (userId transactionNumber : String) (reason : Option String)
  | inventoryUpdate (userId productName : String) (quantity : Int) (updateType : LogType)
deriving DecidableEq, Repr

/-- The relational store: users (ids), products, transactions, inventory
logs, notifications. -/
structure DB where
  users : List String
  products : List Product
  transactions : List Transaction
  logs : List InventoryLog
  notifications : List Notification
deriving DecidableEq, Repr

/-! ## Store primitives (Prisma call shapes) -/

/-- `prisma.product.findUnique({ where: { id } })`. -/
def findProduct (db : DB) (pid : String) : Option Product :=
  db.products.find? (fun p => p.id == pid)

/-- `prisma.transaction.findUnique({ where: { id } })`. -/
def findTransaction (db : DB) (tid : String) : Option Transaction :=
  db.transactions.find? (fun t => t.id == tid)

/-- `prisma.product.update({ where: { id }, data: { stock } })`. -/
def setProductStock (db : DB) (pid : String) (s : Int) : DB :=
  { db with products := db.products.map (fun p => if p.id = pid then { p with stock := s } else p) }

/-- `prisma.product.update({ where: { id }, data: { stock: { decrement: q } } })`. -/
def decrementProductStock (db : DB) (pid : String) (q : Int) : DB :=
  { db with products := db.products.map (fun p => if p.id = pid then { p with stock := p.stock - q } else p) }

/-- `prisma.inventoryLog.create`. -/
def appendLog (db : DB) (l : InventoryLog) : DB :=
  { db with logs := db.logs ++ [l] }

/-- `prisma.notification.create` (via a lib/notifications helper). -/
def appendNotification (db : DB) (n : Notification) : DB :=
  { db with notifications := db.notifications ++ [n] }

/-- `prisma.transaction.update({ where: { id }, data: ... })`. -/
def updateTransaction (db : DB) (tid : String) (f : Transaction → Transaction) : DB :=
  { db with transactions := db.transactions.map (fun t => if t.id = tid then f t else t) }

/-! ## JS string truthiness -/

/-- JS truthiness of an optional string (`undefined` and `""` are falsy). -/
def strTruthy : Option String → Bool
  | none => false
  | some s => !(s == "")

/-- JS `a || b` on optional strings. -/
def jsOrStr (a b : Option String) : Option String :=
  if strTruthy a then a else b

/-! ## Webhook handler (part_008) -/

/-- The capture group of the webhook's external-id pattern match
(part_008 line 24, regex anchored at the start: literal `txn-`, then one or
more non-hyphen characters captured, then a hyphen). -/
def extractTxnId (s : String) : Option String :=
  match s.toList with
  | 't' :: 'x' :: 'n' :: '-' :: rest =>
    let core := rest.takeWhile (fun c => c != '-')
    if core.isEmpty then none
    else if (rest.drop core.length).head? == some '-' then some (String.mk core)
    else none
  | _ => none

/-- The webhook's status-vocabulary mapping (part_008 lines 47-56). -/
def mapWebhookStatus (status : String) : PaymentStatus :=
  if status = "PAID" ∨ status = "SETTLED" ∨ status = "SUCCEEDED" then .PAID
  else if status = "FAILED" then .FAILED
  else if status = "EXPIRED" then .EXPIRED
  else .PENDING

/-- The mapping applied to the raw `body.status`: a missing status falls
through every comparison and leaves the initial `PENDING`. -/
def mapWebhookStatusOpt : Option String → PaymentStatus
  | some s => mapWebhookStatus s
  | none => .PENDING

/-- Inbound webhook JSON body fields read by the handler. -/
structure WebhookBody where
  external_id : Option String
  externalId : Option String
  status : Option String
  id : Option String
deriving DecidableEq, Repr

/-- The webhook's `findFirst` OR-filter (part_008 lines 30-38): match by
extracted transaction id, or by `xenditPaymentId` equal to the external id
or to the body's `id`.  When `body.id` is absent (JS `undefined`), Prisma
strips the undefined field from the `{ xenditPaymentId: id }` entry,
leaving an empty filter that matches every row — so the third disjunct is
`true` for every transaction in that case.  (`none` models an absent
field; an explicit JSON `null`, which would instead filter for rows whose
stored `xenditPaymentId` is NULL, is not distinguished here.) -/
def webhookMatches (txnId : Option String) (eid : String) (bodyId : Option String)
    (t : Transaction) : Bool :=
  (match txnId with
   | some tid => t.id == tid
   | none => false)
  || t.xenditPaymentId == some eid
  || (match bodyId with
      | some i => t.xenditPaymentId == some i
      | none => true)

/-- `prisma.transaction.findFirst` with the webhook OR-filter. -/
def findWebhookTransaction (db : DB) (txnId : Option String) (eid : String)
    (bodyId : Option String) : Option Transaction :=
  db.transactions.find? (webhookMatches txnId eid bodyId)

/-- `body.external_id || body.externalId` (part_008 line 14). -/
def webhookExternalId (body : WebhookBody) : Option String :=
  jsOrStr body.external_id body.externalId

/-- The transaction the webhook resolves, if any: requires a truthy external
id and a `findFirst` hit. -/
def webhookLookup (db : DB) (body : WebhookBody) : Option Transaction :=
  match webhookExternalId body with
  | none => none
  | some eid =>
    if eid = "" then none
    else findWebhookTransaction db (extractTxnId eid) eid body.id

/-- Webhook HTTP outcome: the handler acknowledges every non-exception path
with 200 `{ received: true }`. -/
inductive WebhookResponse
  | received
deriving DecidableEq, Repr

/-- Per-item PAID side effect in the webhook (part_008 lines 81-117):
re-read the product, decrement its stock, append a SALE inventory log, and
emit a low-stock notification when the new stock is at or below `minStock`.
A missing product is skipped silently. -/
def applyWebhookSaleItem (cashierId transactionNumber : String) (db : DB)
    (item : TransactionItem) : DB :=
  match findProduct db item.productId with
  | none => db
  | some product =>
    let newStock := product.stock - item.quantity
    let db1 := decrementProductStock db item.productId item.quantity
    let db2 := appendLog db1 {
      productId := item.productId
      type := .SALE
      quantity := item.quantity
      previousStock := product.stock
      newStock := newStock
      reason := "Sale - Transaction " ++ transactionNumber
      createdBy := cashierId }
    if newStock ≤ product.minStock then
      appendNotification db2 (.lowStock cashierId product.name newStock)
    else db2

/-- The data written by the webhook's `prisma.transaction.update`
(part_008 lines 61-67): the mapped status, and `id || externalId` into
`xenditPaymentId`. -/
def webhookUpdate (ps : PaymentStatus) (xid : Option String) (t : Transaction) : Transaction :=
  { t with paymentStatus := ps, xenditPaymentId := xid }

/-- `POST /api/payments/webhook` (part_008).  Resolves the transaction from
the body, writes the mapped status (and `id || externalId` into
`xenditPaymentId`) unconditionally, then applies the PAID side effects only
on an observed non-PAID → PAID transition, or a payment-failed notification
on a FAILED mapping. -/
def xenditWebhook (db : DB) (body : WebhookBody) : DB × WebhookResponse :=
  match webhookExternalId body with
  | none => (db, .received)
  | some eid =>
    if eid = "" then (db, .received)
    else
      match findWebhookTransaction db (extractTxnId eid) eid body.id with
      | none => (db, .received)
      | some transaction =>
        let paymentStatus := mapWebhookStatusOpt body.status
        let db1 := updateTransaction db transaction.id
          (webhookUpdate paymentStatus (jsOrStr body.id (some eid)))
        if paymentStatus = .PAID ∧ transaction.paymentStatus ≠ .PAID then
          let db2 := transaction.items.foldl
            (applyWebhookSaleItem transaction.cashierId transaction.transactionNumber) db1
          (appendNotification db2
            (.paymentReceived transaction.cashierId transaction.transactionNumber
              transaction.finalAmount), .received)
        else if paymentStatus = .FAILED then
          (appendNotification db1
            (.paymentFailed transaction.cashierId transaction.transactionNumber body.status),
           .received)
        else (db1, .received)

/-! ## Synchronous payment status check (part_006) -/

/-- The status check's mapping of the gateway invoice status (part_006
lines 65-71): only PAID/SETTLED → PAID and EXPIRED → EXPIRED; everything
else — including FAILED and SUCCEEDED — falls through to PENDING. -/
def mapCheckStatus (status : String) : PaymentStatus :=
  if status = "PAID" ∨ status = "SETTLED" then .PAID
  else if status = "EXPIRED" then .EXPIRED
  else .PENDING

/-- Status-check HTTP outcome (the 401/400 guards are outside the embedded
fragment). -/
inductive CheckResponse
  | ok (status : PaymentStatus)
  | notFound
deriving DecidableEq, Repr

/-- Per-item PAID side effect in the status check (part_006 lines 90-126):
identical to the webhook's per-item logic except that the stock write is a
plain set of the computed `newStock` rather than a decrement. -/
def applyCheckSaleItem (cashierId transactionNumber : String) (db : DB)
    (item : TransactionItem) : DB :=
  match findProduct db item.productId with
  | none => db
  | some product =>
    let previousStock := product.stock
    let newStock := previousStock - item.quantity
    let db1 := setProductStock db item.productId newStock
    let db2 := appendLog db1 {
      productId := item.productId
      type := .SALE
      quantity := item.quantity
      previousStock := previousStock
      newStock := newStock
      reason := "Sale - Transaction " ++ transactionNumber
      createdBy := cashierId }
    if newStock ≤ product.minStock then
      appendNotification db2 (.lowStock cashierId product.name newStock)
    else db2

/-- The data written by the status check's `prisma.transaction.update`
(part_006 lines 75-77): just the mapped status. -/
def checkUpdate (ps : PaymentStatus) (t : Transaction) : Transaction :=
  { t with paymentStatus := ps }

/-- Synchronous payment status check (part_006).  `invoiceStatus` is the
status the gateway reports for the stored invoice id when queried; the
gateway is only consulted when the stored `xenditPaymentId` is JS-truthy
(`if (transaction.xenditPaymentId)` on line 56: a missing id or an empty
string skips the gateway).  An already PAID transaction returns
immediately with no mutation. -/
def checkPaymentStatus (db : DB) (transactionId : String) (invoiceStatus : String) :
    DB × CheckResponse :=
  match findTransaction db transactionId with
  | none => (db, .notFound)
  | some transaction =>
    if transaction.paymentStatus = .PAID then (db, .ok .PAID)
    else
      if strTruthy transaction.xenditPaymentId then
        let paymentStatus := mapCheckStatus invoiceStatus
        if paymentStatus ≠ transaction.paymentStatus then
          let db1 := updateTransaction db transaction.id (checkUpdate paymentStatus)
          if paymentStatus = .PAID then
            let db2 := transaction.items.foldl
              (applyCheckSaleItem transaction.cashierId transaction.transactionNumber) db1
            (appendNotification db2
              (.paymentReceived transaction.cashierId transaction.transactionNumber
                transaction.finalAmount), .ok paymentStatus)
          else (db1, .ok paymentStatus)
        else (db, .ok transaction.paymentStatus)
      else (db, .ok transaction.paymentStatus)

/-! ## Transaction creation (part_002) -/

/-- A request line item for transaction creation. -/
structure CreateItemInput where
  productId : String
  quantity : Int
  unitPrice : Int
  totalPrice : Int
deriving DecidableEq, Repr

/-- The create-transaction request body fields the handler reads. -/
structure CreateBody where
  totalAmount : Int
  taxAmount : Option Int
  discountAmount : Option Int
  finalAmount : Int
  paymentMethod : PaymentMethod
  paymentStatus : Option String
  cashierId : String
  xenditPaymentId : Option String
  xenditInvoiceUrl : Option String
  items : List CreateItemInput
deriving DecidableEq, Repr

/-- Create-transaction HTTP outcome. -/
inductive CreateResponse
  | badRequest (msg : String)
  | created (t : Transaction)
  | serverError (msg : String)
deriving DecidableEq, Repr

/-- `isXenditPayment.includes(currentPaymentMethod)` (part_002 lines 204-206). -/
def isXenditPayment (m : PaymentMethod) : Bool :=
  m == .XENDIT_QRIS || m == .XENDIT_EWALLET || m == .XENDIT_VIRTUAL_ACCOUNT

/-- The body of one iteration of the immediate-PAID per-item loop of
transaction creation (part_002 lines 220-250), once the product has been
read: decrement stock, append a SALE log, and emit a low-stock
notification when the new stock is at or below `minStock`. -/
def createSaleStep (cashierId transactionNumber : String) (db : DB)
    (item : CreateItemInput) (product : Product) : DB :=
  let previousStock := product.stock
  let newStock := previousStock - item.quantity
  let db1 := decrementProductStock db item.productId item.quantity
  let db2 := appendLog db1 {
    productId := item.productId
    type := .SALE
    quantity := item.quantity
    previousStock := previousStock
    newStock := newStock
    reason := "Sale - Transaction " ++ transactionNumber
    createdBy := cashierId }
  if newStock ≤ product.minStock then
    appendNotification db2 (.lowStock cashierId product.name newStock)
  else db2

/-- The immediate-PAID per-item loop of transaction creation (part_002
lines 211-251): read the product — throwing (an error that the handler
surfaces as a 500, with earlier iterations already applied) when absent —
then run `createSaleStep` and continue. -/
def applyCreateSaleItems (cashierId transactionNumber : String) (db : DB) :
    List CreateItemInput → DB × Option String
  | [] => (db, none)
  | item :: rest =>
    match findProduct db item.productId with
    | none => (db, some ("Product " ++ item.productId ++ " not found"))
    | some product =>
      applyCreateSaleItems cashierId transactionNumber
        (createSaleStep cashierId transactionNumber db item product) rest

/-- The transaction record assembled by `prisma.transaction.create`
(part_002 lines 172-201): status PAID for cash and PENDING for any other
method, the line items nested as given. -/
def createTxnRecord (body : CreateBody) (txnId transactionNumber : String) : Transaction :=
  { id := txnId
    transactionNumber := transactionNumber
    paymentMethod := body.paymentMethod
    paymentStatus := if body.paymentMethod = .CASH then .PAID else .PENDING
    xenditPaymentId := jsOrStr body.xenditPaymentId none
    cashierId := body.cashierId
    finalAmount := body.finalAmount
    items := body.items.map (fun i =>
      { productId := i.productId, quantity := i.quantity,
        unitPrice := i.unitPrice, totalPrice := i.totalPrice }) }

/-- `POST /api/transactions` (part_002 lines 92-266).  `txnId` and
`transactionNumber` stand for the generated identifiers.  Validation
mirrors the handler's JS truthiness checks (a zero amount or empty
cashier id is falsy); `paymentStatus` is derived from the payment method
alone, but the request body's `paymentStatus` field still gates the
immediate stock decrement for digital methods. -/
def createTransaction (db : DB) (body : CreateBody) (txnId transactionNumber : String) :
    DB × CreateResponse :=
  if body.totalAmount = 0 ∨ body.finalAmount = 0 ∨ body.cashierId = "" ∨ body.items.isEmpty then
    (db, .badRequest "Total amount, final amount, payment method, cashier ID, and items are required")
  else if ¬ db.users.contains body.cashierId then
    (db, .badRequest "Invalid cashier ID. Please log out and log in again.")
  else
    match body.items.find? (fun item => decide (item.quantity ≤ 0)) with
    | some item => (db, .badRequest ("Invalid quantity for product " ++ item.productId))
    | none =>
      let transaction := createTxnRecord body txnId transactionNumber
      let db1 := { db with transactions := db.transactions ++ [transaction] }
      if body.paymentMethod = .CASH ∨
         (isXenditPayment body.paymentMethod ∧ body.paymentStatus = some "PAID") then
        match applyCreateSaleItems body.cashierId transactionNumber db1 body.items with
        | (db2, some msg) => (db2, .serverError msg)
        | (db2, none) =>
          (appendNotification db2 (.newOrder body.cashierId transactionNumber body.finalAmount),
           .created transaction)
      else
        (appendNotification db1 (.newOrder body.cashierId transactionNumber body.finalAmount),
         .created transaction)

/-! ## Inventory adjustment (src/src/app/api/inventory/route.ts) -/

/-- One entry of the adjustment batch. -/
structure Adjustment where
  productId : String
  newStock : Int
  reason : String
deriving DecidableEq, Repr

/-- One per-item result pushed on success. -/
structure AdjResult where
  productId : String
  previousStock : Int
  newStock : Int
  stockDifference : Int
deriving DecidableEq, Repr

/-- Inventory-adjustment HTTP outcome. -/
inductive InventoryResponse
  | badRequest (msg : String)
  | notFound (msg : String)
  | success (adjustments : List AdjResult)
deriving DecidableEq, Repr

/-- The body of one iteration of the adjustment loop (inventory route
lines 119-155), once the product has been read: set the stock, append a
RESTOCK/ADJUSTMENT log, emit an inventory-update notification, and emit a
low-stock notification when the new stock is at or below `minStock`. -/
def adjustStep (userId : String) (db : DB) (adjustment : Adjustment) (product : Product) : DB :=
  let previousStock := product.stock
  let stockDifference := adjustment.newStock - previousStock
  let logType := if stockDifference > 0 then LogType.RESTOCK else LogType.ADJUSTMENT
  let db1 := setProductStock db adjustment.productId adjustment.newStock
  let db2 := appendLog db1 {
    productId := adjustment.productId
    type := logType
    quantity := |stockDifference|
    previousStock := previousStock
    newStock := adjustment.newStock
    reason := adjustment.reason
    createdBy := userId }
  let db3 := appendNotification db2
    (.inventoryUpdate userId product.name |stockDifference| logType)
  if adjustment.newStock ≤ product.minStock then
    appendNotification db3 (.lowStock userId product.name adjustment.newStock)
  else db3

/-- The per-item result pushed for one applied adjustment. -/
def adjResult (adjustment : Adjustment) (product : Product) : AdjResult :=
  { productId := adjustment.productId
    previousStock := product.stock
    newStock := adjustment.newStock
    stockDifference := adjustment.newStock - product.stock }

/-- The adjustment loop (inventory route lines 97-163): each entry is
validated, looked up — a missing product returns a 404 for the whole
request, leaving earlier entries applied and later ones untouched — then
`adjustStep` runs and a per-item result is accumulated. -/
def processAdjustments (userId : String) (db : DB) (acc : List AdjResult) :
    List Adjustment → DB × InventoryResponse
  | [] => (db, .success acc)
  | adjustment :: rest =>
    if adjustment.productId = "" ∨ adjustment.reason = "" then
      (db, .badRequest "Product ID, new stock, and reason are required for each adjustment")
    else
      match findProduct db adjustment.productId with
      | none => (db, .notFound ("Product " ++ adjustment.productId ++ " not found"))
      | some product =>
        processAdjustments userId (adjustStep userId db adjustment product)
          (acc ++ [adjResult adjustment product]) rest

/-- `POST /api/inventory` (inventory route lines 77-177): rejects an empty
batch, otherwise runs the sequential adjustment loop. -/
def inventoryPOST (db : DB) (userId : String) (adjustments : List Adjustment) :
    DB × InventoryResponse :=
  if adjustments.isEmpty then (db, .badRequest "Adjustments array is required")
  else processAdjustments userId db [] adjustments

/-! ## Reporting low-stock figures (part_005) -/

/-- `GET /api/reports` overview `lowStockCount` (part_005 lines 100-107):
`prisma.product.count({ where: { stock: { lte: 5 }, isActive: true } })` —
a hardcoded threshold of 5, not the per-product `minStock`. -/
def overviewLowStockCount (db : DB) : Nat :=
  (db.products.filter (fun p => decide (p.stock ≤ 5) && p.isActive)).length

/-- `GET /api/reports` inventory-tab `lowStockProducts` (part_005 lines
243-257): active products with `stock <= 5` (hardcoded), optionally
restricted to a category.  (The endpoint additionally orders the list by
ascending stock; ordering is not needed by any claim.) -/
def inventoryLowStockProducts (db : DB) (categoryId : Option String) : List Product :=
  db.products.filter (fun p =>
    decide (p.stock ≤ 5) && p.isActive &&
      (match categoryId with
       | some c => p.categoryId == c
       | none => true))

/-! ## Derived quantities -/

/-- Total quantity that a list of line items requests against one product id
(an item list may mention the same product several times). -/
def qtyFor (items : List TransactionItem) (pid : String) : Int :=
  ((items.filter (fun i => i.productId == pid)).map (fun i => i.quantity)).sum

/-- `qtyFor` for the request-body item type. -/
def qtyForInput (items : List CreateItemInput) (pid : String) : Int :=
  ((items.filter (fun i => i.productId == pid)).map (fun i => i.quantity)).sum

/-- Whether a notification is a payment-failed alert (created by
`notifyPaymentFailed`). -/
def Notification.isPaymentFailed : Notification → Bool
  | .paymentFailed _ _ _ => true
  | _ => false

/-- Primary-key uniqueness of product ids (a database invariant the schema
enforces; several per-item loops silently rely on it). -/
def ProductIdsNodup (db : DB) : Prop :=
  (db.products.map (fun p => p.id)).Nodup

/-! ## Concrete fixtures (used by witnesses and counterexamples) -/

/-- A product with comfortable stock. -/
def sampleProduct : Product :=
  { id := "p1", name := "Widget", stock := 10, minStock := 2, isActive := true, categoryId := "c1" }

/-- One line item: 3 units of `sampleProduct`. -/
def sampleItem : TransactionItem :=
  { productId := "p1", quantity := 3, unitPrice := 10, totalPrice := 30 }

/-- A pending digital transaction over `sampleItem`. -/
def sampleTxn : Transaction :=
  { id := "t1"
    transactionNumber := "TXN-1"
    paymentMethod := .XENDIT_QRIS
    paymentStatus := .PENDING
    xenditPaymentId := some "ext1"
    cashierId := "u1"
    finalAmount := 30
    items := [sampleItem] }

/-- A one-user, one-product, one-pending-transaction store. -/
def sampleDB : DB :=
  { users := ["u1"], products := [sampleProduct], transactions := [sampleTxn],
    logs := [], notifications := [] }

/-- The same store with the transaction already PAID. -/
def sampleDBPaid : DB :=
  { sampleDB with transactions := [{ sampleTxn with paymentStatus := .PAID }] }

/-- A webhook carrying gateway status `"PAID"` for `sampleTxn`. -/
def samplePaidBody : WebhookBody :=
  { external_id := some "ext1", externalId := none, status := some "PAID", id := none }

/-- A webhook carrying gateway status `"EXPIRED"` for `sampleTxn`. -/
def sampleExpiredBody : WebhookBody :=
  { external_id := some "ext1", externalId := none, status := some "EXPIRED", id := none }

/-- A webhook whose external id matches nothing in `sampleDB` and whose
`id` field is absent — triggering the undefined-id match-all OR-entry. -/
def sampleUnmatchedBody : WebhookBody :=
  { external_id := some "no-such-ext", externalId := none, status := some "PAID", id := none }

/-- A webhook whose external id and (truthy) `id` both match nothing in
`sampleDB`, so its lookup genuinely resolves no transaction. -/
def sampleUnmatchedIdBody : WebhookBody :=
  { external_id := some "no-such-ext", externalId := none, status := some "PAID",
    id := some "no-such-id" }

/-- A webhook carrying gateway status `"FAILED"` for `sampleTxn`. -/
def sampleFailedBody : WebhookBody :=
  { external_id := some "ext1", externalId := none, status := some "FAILED", id := none }

/-- A second product, for batch scenarios. -/
def sampleProduct2 : Product :=
  { id := "p2", name := "Gadget", stock := 4, minStock := 1, isActive := true, categoryId := "c2" }

/-- A two-product store with no transactions. -/
def sampleDB2 : DB :=
  { users := ["u1"], products := [sampleProduct, sampleProduct2], transactions := [],
    logs := [], notifications := [] }

/-- A valid adjustment for `sampleProduct`. -/
def adjGood1 : Adjustment := { productId := "p1", newStock := 20, reason := "restock p1" }

/-- An adjustment naming a product id that exists nowhere. -/
def adjBad : Adjustment := { productId := "pX", newStock := 7, reason := "phantom" }

/-- A valid adjustment for `sampleProduct2`. -/
def adjGood2 : Adjustment := { productId := "p2", newStock := 9, reason := "restock p2" }

/-- A digital (QRIS) checkout request for 3 units of `sampleProduct` whose
body already carries `paymentStatus: "PAID"`. -/
def sampleXenditBody : CreateBody :=
  { totalAmount := 30
    taxAmount := none
    discountAmount := none
    finalAmount := 30
    paymentMethod := .XENDIT_QRIS
    paymentStatus := some "PAID"
    cashierId := "u1"
    xenditPaymentId := some "ext9"
    xenditInvoiceUrl := none
    items := [{ productId := "p1", quantity := 3, unitPrice := 10, totalPrice := 30 }] }

/-- The follow-up gateway webhook for `sampleXenditBody`'s transaction,
carrying a truthy `id` so its lookup resolves that transaction (and not
the table's first row through the undefined-id match-all entry). -/
def sampleXenditWebhookBody : WebhookBody :=
  { external_id := some "ext9", externalId := none, status := some "PAID", id := some "ext9" }

/-- A cash checkout request for 3 units of `sampleProduct`. -/
def sampleCashBody : CreateBody :=
  { totalAmount := 30
    taxAmount := none
    discountAmount := none
    finalAmount := 30
    paymentMethod := .CASH
    paymentStatus := none
    cashierId := "u1"
    xenditPaymentId := none
    xenditInvoiceUrl := none
    items := [{ productId := "p1", quantity := 3, unitPrice := 10, totalPrice := 30 }] }

/-- A product sitting near its low-stock threshold. -/
def boundaryProduct : Product :=
  { id := "pb", name := "Edge", stock := 5, minStock := 2, isActive := true, categoryId := "c1" }

/-- A store holding only `boundaryProduct`. -/
def boundaryDB : DB :=
  { users := ["u1"], products := [boundaryProduct], transactions := [],
    logs := [], notifications := [] }

/-- Selling 3 units brings `boundaryProduct` exactly to its `minStock`. -/
def boundaryItem : TransactionItem :=
  { productId := "pb", quantity := 3, unitPrice := 1, totalPrice := 3 }

/-- Selling 2 units leaves `boundaryProduct` one unit above its `minStock`. -/
def boundaryItem2 : TransactionItem :=
  { productId := "pb", quantity := 2, unitPrice := 1, totalPrice := 2 }

/-- A store whose single product is low by its own `minStock` (stock 6 of a
minimum 10) yet above the reports' hardcoded threshold of 5. -/
def minStockDivergenceDB : DB :=
  { users := [], transactions := [], logs := [], notifications := [],
    products := [{ id := "p9", name := "Gizmo", stock := 6, minStock := 10,
                   isActive := true, categoryId := "c1" }] }

/-! ## Basic store lemmas -/

lemma appendLog_products (db : DB) (l : InventoryLog) :
    (appendLog db l).products = db.products := rfl

lemma appendNotification_products (db : DB) (n : Notification) :
    (appendNotification db n).products = db.products := rfl

lemma updateTransaction_products (db : DB) (tid : String) (f : Transaction → Transaction) :
    (updateTransaction db tid f).products = db.products := rfl

lemma decrementProductStock_products (db : DB) (pid : String) (q : Int) :
    (decrementProductStock db pid q).products
      = db.products.map (fun p => if p.id = pid then { p with stock := p.stock - q } else p) := rfl

lemma appendLog_logs (db : DB) (l : InventoryLog) :
    (appendLog db l).logs = db.logs ++ [l] := rfl

lemma appendLog_notifications (db : DB) (l : InventoryLog) :
    (appendLog db l).notifications = db.notifications := rfl

lemma appendNotification_logs (db : DB) (n : Notification) :
    (appendNotification db n).logs = db.logs := rfl

lemma appendNotification_notifications (db : DB) (n : Notification) :
    (appendNotification db n).notifications = db.notifications ++ [n] := rfl

lemma updateTransaction_logs (db : DB) (tid : String) (f : Transaction → Transaction) :
    (updateTransaction db tid f).logs = db.logs := rfl

lemma decrementProductStock_notifications (db : DB) (pid : String) (q : Int) :
    (decrementProductStock db pid q).notifications = db.notifications := rfl

lemma setProductStock_notifications (db : DB) (pid : String) (s : Int) :
    (setProductStock db pid s).notifications = db.notifications := rfl

lemma setProductStock_products (db : DB) (pid : String) (s : Int) :
    (setProductStock db pid s).products
      = db.products.map (fun p => if p.id = pid then { p with stock := s } else p) := rfl

lemma qtyFor_nil (pid : String) : qtyFor [] pid = 0 := rfl

lemma qtyFor_cons (i : TransactionItem) (items : List TransactionItem) (pid : String) :
    qtyFor (i :: items) pid
      = (if i.productId == pid then i.quantity else 0) + qtyFor items pid := by
  simp only [qtyFor, List.filter_cons]
  split <;> simp

lemma applyWebhookSaleItem_products (c n : String) (db : DB) (i : TransactionItem) :
    (applyWebhookSaleItem c n db i).products
      = match findProduct db i.productId with
        | none => db.products
        | some _ => db.products.map
            (fun p => if p.id = i.productId then { p with stock := p.stock - i.quantity } else p) := by
  unfold applyWebhookSaleItem
  cases h : findProduct db i.productId with
  | none => rfl
  | some product =>
    simp only []
    split <;> rfl

/-- Folding the webhook per-item PAID side effect over an item list
decrements every product's stock by the total quantity the items request
against it (and touches no other product field). -/
lemma foldl_applyWebhookSaleItem_products (c n : String) :
    ∀ (items : List TransactionItem) (db : DB),
      (items.foldl (applyWebhookSaleItem c n) db).products
        = db.products.map (fun p => { p with stock := p.stock - qtyFor items p.id })
  | [], db => by
    simp only [List.foldl_nil, qtyFor_nil, sub_zero]
    have he : (fun (p : Product) => ({ p with stock := p.stock } : Product)) = fun p => p := rfl
    rw [he, List.map_id']
  | i :: items, db => by
    rw [List.foldl_cons, foldl_applyWebhookSaleItem_products c n items,
        applyWebhookSaleItem_products]
    cases h : findProduct db i.productId with
    | none =>
      simp only []
      refine List.map_congr_left (fun p hp => ?_)
      have hno : ¬ (p.id == i.productId) = true := List.find?_eq_none.mp h p hp
      have hpe : p.id ≠ i.productId := by simpa using hno
      have hb : (i.productId == p.id) = false := beq_eq_false_iff_ne.mpr (Ne.symm hpe)
      simp [qtyFor_cons, hb]
    | some product =>
      simp only [List.map_map]
      refine List.map_congr_left (fun p hp => ?_)
      simp only [Function.comp_apply]
      by_cases hid : p.id = i.productId
      · have hb : (i.productId == p.id) = true := beq_iff_eq.mpr hid.symm
        simp only [if_pos hid, qtyFor_cons, hb, if_true]
        congr 1
        omega
      · have hb : (i.productId == p.id) = false := beq_eq_false_iff_ne.mpr (Ne.symm hid)
        simp [if_neg hid, qtyFor_cons, hb]

lemma applyWebhookSaleItem_transactions (c n : String) (db : DB) (i : TransactionItem) :
    (applyWebhookSaleItem c n db i).transactions = db.transactions := by
  unfold applyWebhookSaleItem
  cases findProduct db i.productId with
  | none => rfl
  | some product =>
    simp only []
    split <;> rfl

lemma foldl_applyWebhookSaleItem_transactions (c n : String) :
    ∀ (items : List TransactionItem) (db : DB),
      (items.foldl (applyWebhookSaleItem c n) db).transactions = db.transactions
  | [], _ => rfl
  | i :: items, db => by
    rw [List.foldl_cons, foldl_applyWebhookSaleItem_transactions c n items,
        applyWebhookSaleItem_transactions]

lemma applyWebhookSaleItem_ids (c n : String) (db : DB) (i : TransactionItem) :
    (applyWebhookSaleItem c n db i).products.map (fun p => p.id)
      = db.products.map (fun p => p.id) := by
  rw [applyWebhookSaleItem_products]
  cases findProduct db i.productId with
  | none => rfl
  | some product =>
    simp only [List.map_map]
    refine List.map_congr_left (fun p _ => ?_)
    by_cases hid : p.id = i.productId <;> simp [hid]

/-- `find?` commutes with a map that does not change the predicate's
verdict. -/
lemma find?_map_invariant {α : Type} (p : α → Bool) (g : α → α)
    (hg : ∀ a, p (g a) = p a) :
    ∀ l : List α, (l.map g).find? p = (l.find? p).map g := by
  intro l
  induction l with
  | nil => rfl
  | cons a l ih =>
    simp only [List.map_cons]
    cases hpa : p a with
    | true =>
      rw [List.find?_cons_of_pos _ (by rw [hg]; exact hpa),
          List.find?_cons_of_pos _ hpa]
      rfl
    | false =>
      rw [List.find?_cons_of_neg _ (by rw [hg, hpa]; simp),
          List.find?_cons_of_neg _ (by rw [hpa]; simp), ih]

/-- After keyed-updating every element whose id is the found element's id
with an update `f` that preserves ids and forces the predicate to hold,
`find?` still hits: it returns `f` of some element carrying that id. -/
lemma find?_map_update_hit (p : Transaction → Bool) (f : Transaction → Transaction)
    (tid : String)
    (hpf : ∀ s, p (f s) = true) :
    ∀ (l : List Transaction) (t : Transaction),
      l.find? p = some t → t.id = tid →
      ∃ a, a.id = tid ∧
        (l.map (fun s => if s.id = tid then f s else s)).find? p = some (f a) := by
  intro l
  induction l with
  | nil => intro t h; simp at h
  | cons b l ih =>
    intro t hfind htid
    by_cases hb : b.id = tid
    · refine ⟨b, hb, ?_⟩
      simp only [List.map_cons, if_pos hb]
      rw [List.find?_cons_of_pos _ (hpf b)]
    · cases hpb : p b with
      | true =>
        rw [List.find?_cons_of_pos _ hpb] at hfind
        injection hfind with hbt
        exact absurd (hbt ▸ htid) hb
      | false =>
        rw [List.find?_cons_of_neg _ (by simp [hpb])] at hfind
        obtain ⟨a, ha, hfa⟩ := ih t hfind htid
        refine ⟨a, ha, ?_⟩
        simp only [List.map_cons, if_neg hb]
        rw [List.find?_cons_of_neg _ (by simp [hpb]), hfa]

/-- A transaction that has just received the webhook's update data always
matches the webhook's OR-filter again (via the external id or the body id
written into `xenditPaymentId`). -/
lemma webhookMatches_webhookUpdate (txnId : Option String) (eid : String)
    (bodyId : Option String) (ps : PaymentStatus) (s : Transaction) :
    webhookMatches txnId eid bodyId (webhookUpdate ps (jsOrStr bodyId (some eid)) s) = true := by
  cases bodyId with
  | none => simp [webhookMatches, webhookUpdate, jsOrStr, strTruthy]
  | some i =>
    by_cases hi : i = ""
    · subst hi
      simp [webhookMatches, webhookUpdate, jsOrStr, strTruthy]
    · simp [webhookMatches, webhookUpdate, jsOrStr, strTruthy, hi]

/-- Destructure a successful webhook lookup. -/
lemma webhookLookup_elim {db : DB} {body : WebhookBody} {t : Transaction}
    (h : webhookLookup db body = some t) :
    ∃ eid, webhookExternalId body = some eid ∧ ¬ eid = "" ∧
      findWebhookTransaction db (extractTxnId eid) eid body.id = some t := by
  unfold webhookLookup at h
  cases he : webhookExternalId body with
  | none => rw [he] at h; exact absurd h (by simp)
  | some eid =>
    rw [he] at h
    simp only [] at h
    by_cases hz : eid = ""
    · rw [if_pos hz] at h; exact absurd h (by simp)
    · rw [if_neg hz] at h; exact ⟨eid, rfl, hz, h⟩

/-- The webhook on a resolved, not-yet-PAID transaction with a PAID-mapping
status: the full equation of the handler's result. -/
lemma xenditWebhook_found_paid (db : DB) (body : WebhookBody) (eid : String)
    (t : Transaction)
    (he : webhookExternalId body = some eid) (hz : ¬ eid = "")
    (hf : findWebhookTransaction db (extractTxnId eid) eid body.id = some t)
    (hs : mapWebhookStatusOpt body.status = .PAID)
    (hnp : t.paymentStatus ≠ .PAID) :
    xenditWebhook db body =
      (appendNotification
        (t.items.foldl (applyWebhookSaleItem t.cashierId t.transactionNumber)
          (updateTransaction db t.id (webhookUpdate .PAID (jsOrStr body.id (some eid)))))
        (.paymentReceived t.cashierId t.transactionNumber t.finalAmount), .received) := by
  unfold xenditWebhook
  rw [he]
  simp only [if_neg hz, hf, hs]
  rw [if_pos ⟨trivial, hnp⟩]

/-- A second webhook delivery for the same body, fired on any state whose
transactions are the first delivery's keyed update, is a no-op. -/
lemma xenditWebhook_second_noop (db : DB) (body : WebhookBody) (eid : String)
    (t : Transaction)
    (he : webhookExternalId body = some eid) (hz : ¬ eid = "")
    (hs : mapWebhookStatusOpt body.status = .PAID)
    (db1 : DB)
    (htr : db1.transactions = db.transactions.map
      (fun s => if s.id = t.id then webhookUpdate .PAID (jsOrStr body.id (some eid)) s else s))
    (hf : findWebhookTransaction db (extractTxnId eid) eid body.id = some t) :
    xenditWebhook db1 body = (db1, .received) := by
  have htid : t.id = t.id := rfl
  obtain ⟨a, ha, hfa⟩ := find?_map_update_hit
    (webhookMatches (extractTxnId eid) eid body.id)
    (webhookUpdate .PAID (jsOrStr body.id (some eid))) t.id
    (fun s => webhookMatches_webhookUpdate (extractTxnId eid) eid body.id .PAID s)
    db.transactions t hf htid
  have hfind1 : findWebhookTransaction db1 (extractTxnId eid) eid body.id
      = some (webhookUpdate .PAID (jsOrStr body.id (some eid)) a) := by
    unfold findWebhookTransaction
    rw [htr]
    exact hfa
  unfold xenditWebhook
  rw [he]
  simp only [if_neg hz, hfind1, hs]
  have hguard : ¬ (True ∧
      (webhookUpdate .PAID (jsOrStr body.id (some eid)) a).paymentStatus ≠ .PAID) := by
    intro hcon
    exact hcon.2 rfl
  rw [if_neg hguard, if_neg (by intro hcon; exact PaymentStatus.noConfusion hcon)]
  have hupd : updateTransaction db1 (webhookUpdate .PAID (jsOrStr body.id (some eid)) a).id
      (webhookUpdate .PAID (jsOrStr body.id (some eid))) = db1 := by
    have hidA : (webhookUpdate .PAID (jsOrStr body.id (some eid)) a).id = t.id := ha
    unfold updateTransaction
    rw [hidA, htr, List.map_map]
    have : ∀ s ∈ db.transactions,
        ((fun s => if s.id = t.id then webhookUpdate .PAID (jsOrStr body.id (some eid)) s else s) ∘
         (fun s => if s.id = t.id then webhookUpdate .PAID (jsOrStr body.id (some eid)) s else s)) s
        = (fun s => if s.id = t.id then webhookUpdate .PAID (jsOrStr body.id (some eid)) s else s) s := by
      intro s _
      simp only [Function.comp_apply]
      by_cases hsid : s.id = t.id
      · rw [if_pos hsid, if_pos (show (webhookUpdate .PAID (jsOrStr body.id (some eid)) s).id = t.id from hsid)]
        rfl
      · rw [if_neg hsid, if_neg hsid]
    rw [List.map_congr_left this, ← htr]
  rw [hupd]

/-- With duplicate-free keys, `find?` by key determines any member carrying
that key. -/
lemma find?_beq_eq_of_mem {α β : Type} [DecidableEq β] (f : α → β) (k : β) (x : α) :
    ∀ l : List α, (l.map f).Nodup → l.find? (fun a => f a == k) = some x →
      ∀ a ∈ l, f a = k → a = x := by
  intro l
  induction l with
  | nil => intro _ h; simp at h
  | cons b l ih =>
    intro hnd hfind a hmem hak
    rw [List.map_cons, List.nodup_cons] at hnd
    cases hpb : (f b == k) with
    | true =>
      rw [List.find?_cons_of_pos (p := fun a => f a == k) _ hpb] at hfind
      injection hfind with hbx
      rcases List.mem_cons.mp hmem with hab | hal
      · exact hab ▸ hbx
      · exfalso
        have hfb : f b = k := beq_iff_eq.mp hpb
        have hba : f a = f b := hak.trans hfb.symm
        exact hnd.1 (hba ▸ List.mem_map_of_mem f hal)
    | false =>
      rw [List.find?_cons_of_neg (p := fun a => f a == k) _ (by simp [hpb])] at hfind
      rcases List.mem_cons.mp hmem with hab | hal
      · exfalso
        exact absurd (beq_iff_eq.mpr (hab ▸ hak)) (by simp [hpb])
      · exact ih hnd.2 hfind a hal hak

lemma findProduct_eq_of_mem {db : DB} {pid : String} {x p : Product}
    (hnd : ProductIdsNodup db) (hf : findProduct db pid = some x)
    (hp : p ∈ db.products) (hpid : p.id = pid) : p = x := by
  unfold ProductIdsNodup at hnd
  unfold findProduct at hf
  exact find?_beq_eq_of_mem (fun p => p.id) pid x db.products hnd hf p hp hpid

/-- Under unique product ids, the status check's per-item side effect (a
plain stock set) coincides with the webhook's (an atomic decrement). -/
lemma applyCheckSaleItem_eq (c n : String) (db : DB) (i : TransactionItem)
    (hnd : ProductIdsNodup db) :
    applyCheckSaleItem c n db i = applyWebhookSaleItem c n db i := by
  unfold applyCheckSaleItem applyWebhookSaleItem
  cases hp : findProduct db i.productId with
  | none => rfl
  | some product =>
    simp only []
    have hps : setProductStock db i.productId (product.stock - i.quantity)
        = decrementProductStock db i.productId i.quantity := by
      unfold setProductStock decrementProductStock
      congr 1
      refine List.map_congr_left (fun p hmem => ?_)
      by_cases hid : p.id = i.productId
      · rw [if_pos hid, if_pos hid,
            findProduct_eq_of_mem hnd hp hmem hid]
      · rw [if_neg hid, if_neg hid]
    rw [hps]

lemma applyCheckSaleItem_transactions (c n : String) (db : DB) (i : TransactionItem) :
    (applyCheckSaleItem c n db i).transactions = db.transactions := by
  unfold applyCheckSaleItem
  cases findProduct db i.productId with
  | none => rfl
  | some product =>
    simp only []
    split <;> rfl

lemma foldl_applyCheckSaleItem_transactions (c n : String) :
    ∀ (items : List TransactionItem) (db : DB),
      (items.foldl (applyCheckSaleItem c n) db).transactions = db.transactions
  | [], _ => rfl
  | i :: items, db => by
    rw [List.foldl_cons, foldl_applyCheckSaleItem_transactions c n items,
        applyCheckSaleItem_transactions]

lemma productIdsNodup_applyWebhookSaleItem (c n : String) (db : DB) (i : TransactionItem)
    (hnd : ProductIdsNodup db) :
    ProductIdsNodup (applyWebhookSaleItem c n db i) := by
  unfold ProductIdsNodup at hnd ⊢
  rw [applyWebhookSaleItem_ids]
  exact hnd

/-- Under unique product ids, the two per-item PAID side-effect folds agree. -/
lemma foldl_applyCheckSaleItem_eq (c n : String) :
    ∀ (items : List TransactionItem) (db : DB), ProductIdsNodup db →
      items.foldl (applyCheckSaleItem c n) db = items.foldl (applyWebhookSaleItem c n) db
  | [], _, _ => rfl
  | i :: items, db, hnd => by
    rw [List.foldl_cons, List.foldl_cons, applyCheckSaleItem_eq c n db i hnd,
        foldl_applyCheckSaleItem_eq c n items _ (productIdsNodup_applyWebhookSaleItem c n db i hnd)]

lemma appendNotification_transactions (db : DB) (n : Notification) :
    (appendNotification db n).transactions = db.transactions := rfl

lemma updateTransaction_transactions (db : DB) (tid : String) (f : Transaction → Transaction) :
    (updateTransaction db tid f).transactions
      = db.transactions.map (fun t => if t.id = tid then f t else t) := rfl

/-- The status check on a transaction that is already PAID returns
immediately and mutates nothing. -/
lemma checkPaymentStatus_already_paid (db : DB) (tid s : String) (u : Transaction)
    (hf : findTransaction db tid = some u) (hp : u.paymentStatus = .PAID) :
    checkPaymentStatus db tid s = (db, .ok .PAID) := by
  unfold checkPaymentStatus
  rw [hf]
  simp only [if_pos hp]

/-- The status check on a resolved, not-yet-PAID transaction holding a
JS-truthy gateway payment id, when the gateway reports "PAID": the full
equation of the handler's result. -/
lemma checkPaymentStatus_paid_eq (db : DB) (tid : String) (t : Transaction)
    (hf : findTransaction db tid = some t)
    (hnp : t.paymentStatus ≠ .PAID)
    (hx : strTruthy t.xenditPaymentId = true) :
    checkPaymentStatus db tid "PAID" =
      (appendNotification
        (t.items.foldl (applyCheckSaleItem t.cashierId t.transactionNumber)
          (updateTransaction db t.id (checkUpdate .PAID)))
        (.paymentReceived t.cashierId t.transactionNumber t.finalAmount), .ok .PAID) := by
  unfold checkPaymentStatus
  rw [hf]
  simp only [if_neg hnp]
  have hm : mapCheckStatus "PAID" = .PAID := by decide
  simp only [hm]
  rw [if_pos hx, if_pos (Ne.symm hnp), if_pos trivial]

/-- The webhook on a resolved transaction that is already PAID: the status
field is still overwritten with the mapped status, but no stock or log
side effect runs. -/
lemma xenditWebhook_found_already_paid (db : DB) (body : WebhookBody) (eid : String)
    (t : Transaction)
    (he : webhookExternalId body = some eid) (hz : ¬ eid = "")
    (hf : findWebhookTransaction db (extractTxnId eid) eid body.id = some t)
    (hp : t.paymentStatus = .PAID) :
    (xenditWebhook db body).1.products = db.products ∧
    (xenditWebhook db body).1.logs = db.logs ∧
    (xenditWebhook db body).1.transactions
      = db.transactions.map (fun u =>
          if u.id = t.id
          then webhookUpdate (mapWebhookStatusOpt body.status) (jsOrStr body.id (some eid)) u
          else u) := by
  unfold xenditWebhook
  rw [he]
  simp only [if_neg hz, hf]
  have hguard : ¬ (mapWebhookStatusOpt body.status = .PAID ∧ t.paymentStatus ≠ .PAID) := by
    intro hcon
    exact hcon.2 hp
  rw [if_neg hguard]
  by_cases hfs : mapWebhookStatusOpt body.status = .FAILED
  · rw [if_pos hfs]
    exact ⟨rfl, rfl, rfl⟩
  · rw [if_neg hfs]
    exact ⟨rfl, rfl, rfl⟩

lemma qtyForInput_nil (pid : String) : qtyForInput [] pid = 0 := rfl

lemma qtyForInput_cons (i : CreateItemInput) (items : List CreateItemInput) (pid : String) :
    qtyForInput (i :: items) pid
      = (if i.productId == pid then i.quantity else 0) + qtyForInput items pid := by
  simp only [qtyForInput, List.filter_cons]
  split <;> simp

lemma sum_map_add_int {α : Type} (f g : α → Int) :
    ∀ l : List α, (l.map (fun a => f a + g a)).sum = (l.map f).sum + (l.map g).sum
  | [] => by simp
  | a :: l => by
    simp only [List.map_cons, List.sum_cons, sum_map_add_int f g l]
    ring

lemma sum_map_sub_int {α : Type} (f g : α → Int) :
    ∀ l : List α, (l.map (fun a => f a - g a)).sum = (l.map f).sum - (l.map g).sum
  | [] => by simp
  | a :: l => by
    simp only [List.map_cons, List.sum_cons, sum_map_sub_int f g l]
    ring

lemma sum_indicator_int (pid : String) (c : Int) :
    ∀ ps : List Product, (ps.map (fun p => p.id)).Nodup → (∃ p ∈ ps, p.id = pid) →
      (ps.map (fun p => if pid == p.id then c else 0)).sum = c
  | [], _, hex => by simp at hex
  | q :: ps, hnd, hex => by
    rw [List.map_cons, List.nodup_cons] at hnd
    by_cases hq : q.id = pid
    · have hb : (pid == q.id) = true := beq_iff_eq.mpr hq.symm
      simp only [List.map_cons, List.sum_cons, hb, if_true]
      have hzero : (ps.map (fun p => if pid == p.id then c else 0)).sum = 0 := by
        apply List.sum_eq_zero
        intro x hx
        obtain ⟨p, hp, hpe⟩ := List.mem_map.mp hx
        have hne : ¬ p.id = pid := by
          intro he
          have hmm : p.id ∈ ps.map (fun p => p.id) := List.mem_map_of_mem _ hp
          rw [he, ← hq] at hmm
          exact hnd.1 hmm
        rw [← hpe]
        simp [beq_eq_false_iff_ne.mpr (Ne.symm hne)]
      rw [hzero]
      ring
    · have hb : (pid == q.id) = false := beq_eq_false_iff_ne.mpr (Ne.symm hq)
      obtain ⟨p, hp, hpe⟩ := hex
      rcases List.mem_cons.mp hp with h | h
      · exact absurd (h ▸ hpe) hq
      · simp only [List.map_cons, List.sum_cons, hb]
        rw [sum_indicator_int pid c ps hnd.2 ⟨p, h, hpe⟩]
        simp

lemma sum_qtyForInput (ps : List Product) (hnd : (ps.map (fun p => p.id)).Nodup) :
    ∀ items : List CreateItemInput,
      (∀ i ∈ items, ∃ p ∈ ps, p.id = i.productId) →
      (ps.map (fun p => qtyForInput items p.id)).sum = (items.map (fun i => i.quantity)).sum
  | [], _ => by
    apply List.sum_eq_zero
    intro x hx
    obtain ⟨p, _, hpe⟩ := List.mem_map.mp hx
    exact hpe ▸ rfl
  | i :: items, hex => by
    have h1 : (fun p : Product => qtyForInput (i :: items) p.id)
        = fun p => (if i.productId == p.id then i.quantity else 0) + qtyForInput items p.id :=
      funext (fun p => qtyForInput_cons i items p.id)
    rw [h1, sum_map_add_int,
        sum_qtyForInput ps hnd items (fun j hj => hex j (List.mem_cons_of_mem i hj)),
        sum_indicator_int i.productId i.quantity ps hnd (hex i (List.mem_cons_self i items))]
    simp

lemma createSaleStep_products (c n : String) (db : DB) (i : CreateItemInput) (product : Product) :
    (createSaleStep c n db i product).products
      = db.products.map
          (fun p => if p.id = i.productId then { p with stock := p.stock - i.quantity } else p) := by
  simp only [createSaleStep]
  split <;> rfl

lemma createSaleStep_transactions (c n : String) (db : DB) (i : CreateItemInput) (product : Product) :
    (createSaleStep c n db i product).transactions = db.transactions := by
  simp only [createSaleStep]
  split <;> rfl

lemma createSaleStep_users (c n : String) (db : DB) (i : CreateItemInput) (product : Product) :
    (createSaleStep c n db i product).users = db.users := by
  simp only [createSaleStep]
  split <;> rfl

lemma createSaleStep_logs (c n : String) (db : DB) (i : CreateItemInput) (product : Product) :
    (createSaleStep c n db i product).logs = db.logs ++
      [{ productId := i.productId
         type := .SALE
         quantity := i.quantity
         previousStock := product.stock
         newStock := product.stock - i.quantity
         reason := "Sale - Transaction " ++ n
         createdBy := c }] := by
  simp only [createSaleStep]
  split <;> rfl

lemma findProduct_isSome_of_map (db' db : DB) (g : Product → Product)
    (hg : ∀ p, (g p).id = p.id) (hprod : db'.products = db.products.map g) (pid : String) :
    (findProduct db' pid).isSome = (findProduct db pid).isSome := by
  unfold findProduct
  rw [hprod, find?_map_invariant (fun p => p.id == pid) g
        (fun p => by show ((g p).id == pid) = (p.id == pid); rw [hg])]
  cases db.products.find? (fun p => p.id == pid) <;> rfl

/-- Full characterisation of the immediate-PAID per-item creation loop when
every referenced product exists: no error, stock decremented by the total
per-product quantity, transactions and users untouched, and exactly one
SALE log appended per item. -/
lemma applyCreateSaleItems_ok (c n : String) :
    ∀ (items : List CreateItemInput) (db : DB),
      (∀ i ∈ items, (findProduct db i.productId).isSome) →
      (applyCreateSaleItems c n db items).2 = none ∧
      (applyCreateSaleItems c n db items).1.products
        = db.products.map (fun p => { p with stock := p.stock - qtyForInput items p.id }) ∧
      (applyCreateSaleItems c n db items).1.transactions = db.transactions ∧
      (applyCreateSaleItems c n db items).1.logs.length = db.logs.length + items.length ∧
      (∀ l ∈ (applyCreateSaleItems c n db items).1.logs, l ∈ db.logs ∨ l.type = .SALE)
  | [], db, _ => by
    refine ⟨rfl, ?_, rfl, rfl, fun l hl => Or.inl hl⟩
    have he : (fun p : Product => ({ p with stock := p.stock - qtyForInput [] p.id } : Product))
        = fun p => p := by
      funext p
      show ({ p with stock := p.stock - 0 } : Product) = p
      simp
    rw [he, List.map_id']
    rfl
  | i :: items, db, hex => by
    have hi : (findProduct db i.productId).isSome = true := hex i (List.mem_cons_self i items)
    obtain ⟨product, hp⟩ := Option.isSome_iff_exists.mp hi
    have hgid : ∀ p : Product,
        ((fun p => if p.id = i.productId then { p with stock := p.stock - i.quantity } else p) p).id
          = p.id := by
      intro p
      by_cases h : p.id = i.productId <;> simp [h]
    have hex2 : ∀ j ∈ items, (findProduct (createSaleStep c n db i product) j.productId).isSome := by
      intro j hj
      rw [findProduct_isSome_of_map (createSaleStep c n db i product) db _ hgid
            (createSaleStep_products c n db i product) j.productId]
      exact hex j (List.mem_cons_of_mem i hj)
    obtain ⟨h2none, h2prod, h2trans, h2len, h2mem⟩ :=
      applyCreateSaleItems_ok c n items (createSaleStep c n db i product) hex2
    have hunf : applyCreateSaleItems c n db (i :: items)
        = applyCreateSaleItems c n (createSaleStep c n db i product) items := by
      show (match findProduct db i.productId with
            | none => (db, some ("Product " ++ i.productId ++ " not found"))
            | some product => applyCreateSaleItems c n (createSaleStep c n db i product) items)
          = applyCreateSaleItems c n (createSaleStep c n db i product) items
      rw [hp]
    refine ⟨by rw [hunf]; exact h2none, ?_,
      by rw [hunf, h2trans, createSaleStep_transactions], ?_, ?_⟩
    · rw [hunf, h2prod, createSaleStep_products, List.map_map]
      refine List.map_congr_left (fun p hmem => ?_)
      simp only [Function.comp_apply]
      by_cases hid : p.id = i.productId
      · have hb : (i.productId == p.id) = true := beq_iff_eq.mpr hid.symm
        simp only [if_pos hid, qtyForInput_cons, hb, if_true]
        congr 1
        omega
      · have hb : (i.productId == p.id) = false := beq_eq_false_iff_ne.mpr (Ne.symm hid)
        simp [if_neg hid, qtyForInput_cons, hb]
    · rw [hunf, h2len, createSaleStep_logs]
      simp only [List.length_append, List.length_cons, List.length_nil]
      omega
    · intro l hl
      rw [hunf] at hl
      rcases h2mem l hl with hin | hsale
      · rw [createSaleStep_logs] at hin
        rcases List.mem_append.mp hin with h | h
        · exact Or.inl h
        · right
          rw [List.mem_singleton.mp h]
      · exact Or.inr hsale

/-- The create handler in an immediate-stock-decrement configuration, with
every validation passing and the per-item loop succeeding: the full
equation of the handler's result. -/
lemma createTransaction_immediate (db : DB) (body : CreateBody) (txnId tn : String)
    (h1 : ¬(body.totalAmount = 0 ∨ body.finalAmount = 0 ∨ body.cashierId = ""
        ∨ body.items.isEmpty = true))
    (hcu : db.users.contains body.cashierId)
    (hfq : body.items.find? (fun item => decide (item.quantity ≤ 0)) = none)
    (himm : body.paymentMethod = .CASH ∨
      (isXenditPayment body.paymentMethod = true ∧ body.paymentStatus = some "PAID"))
    (hok : (applyCreateSaleItems body.cashierId tn
        { db with transactions := db.transactions ++ [createTxnRecord body txnId tn] }
        body.items).2 = none) :
    createTransaction db body txnId tn
      = (appendNotification
          (applyCreateSaleItems body.cashierId tn
            { db with transactions := db.transactions ++ [createTxnRecord body txnId tn] }
            body.items).1
          (.newOrder body.cashierId tn body.finalAmount),
         .created (createTxnRecord body txnId tn)) := by
  unfold createTransaction
  rw [if_neg h1, if_neg (not_not_intro hcu), hfq]
  simp only []
  rw [if_pos himm]
  have hsplit : applyCreateSaleItems body.cashierId tn
      { db with transactions := db.transactions ++ [createTxnRecord body txnId tn] } body.items
      = ((applyCreateSaleItems body.cashierId tn
          { db with transactions := db.transactions ++ [createTxnRecord body txnId tn] }
          body.items).1, none) := by
    conv_lhs => rw [← Prod.mk.eta (p := applyCreateSaleItems body.cashierId tn
      { db with transactions := db.transactions ++ [createTxnRecord body txnId tn] } body.items)]
    rw [hok]
  rw [hsplit]

lemma qtyFor_map_items (items : List CreateItemInput) (pid : String) :
    qtyFor (items.map (fun i =>
        ({ productId := i.productId, quantity := i.quantity,
           unitPrice := i.unitPrice, totalPrice := i.totalPrice } : TransactionItem))) pid
      = qtyForInput items pid := by
  induction items with
  | nil => rfl
  | cons i items ih =>
    rw [List.map_cons, qtyFor_cons, qtyForInput_cons, ih]

lemma adjustStep_products (u : String) (db : DB) (a : Adjustment) (product : Product) :
    (adjustStep u db a product).products
      = db.products.map
          (fun p => if p.id = a.productId then { p with stock := a.newStock } else p) := by
  simp only [adjustStep]
  split <;> rfl

lemma findProduct_none_of_map (db' db : DB) (g : Product → Product)
    (hg : ∀ p, (g p).id = p.id) (hprod : db'.products = db.products.map g) (pid : String)
    (h : findProduct db pid = none) : findProduct db' pid = none := by
  have hiso := findProduct_isSome_of_map db' db g hg hprod pid
  rw [h] at hiso
  cases hfp : findProduct db' pid with
  | none => rfl
  | some v => rw [hfp] at hiso; simp at hiso

/-- Running the adjustment loop on a batch whose prefix is valid and whose
next entry names an unknown product: the prefix applies and reports
success results, and the whole batch stops at the unknown product with a
single not-found response, leaving the state exactly as after the
prefix — entries after the invalid one are never applied. -/
lemma processAdjustments_prefix (userId : String) (bad : Adjustment) (post : List Adjustment)
    (hbad : ¬(bad.productId = "" ∨ bad.reason = "")) :
    ∀ (pre : List Adjustment) (db : DB) (acc : List AdjResult),
      (∀ a ∈ pre, ¬(a.productId = "" ∨ a.reason = "") ∧ (findProduct db a.productId).isSome) →
      findProduct db bad.productId = none →
      ∃ db2 rs, processAdjustments userId db acc pre = (db2, .success rs) ∧
        processAdjustments userId db acc (pre ++ bad :: post)
          = (db2, .notFound ("Product " ++ bad.productId ++ " not found"))
  | [], db, acc, _, hmiss => by
    refine ⟨db, acc, rfl, ?_⟩
    show processAdjustments userId db acc (bad :: post)
      = (db, .notFound ("Product " ++ bad.productId ++ " not found"))
    unfold processAdjustments
    rw [if_neg hbad, hmiss]
  | a :: pre, db, acc, hvalid, hmiss => by
    obtain ⟨haf, has⟩ := hvalid a (List.mem_cons_self a pre)
    obtain ⟨product, hp⟩ := Option.isSome_iff_exists.mp has
    have hgid : ∀ p : Product,
        ((fun p => if p.id = a.productId then { p with stock := a.newStock } else p) p).id
          = p.id := by
      intro p
      by_cases h : p.id = a.productId <;> simp [h]
    have hvalid2 : ∀ b ∈ pre, ¬(b.productId = "" ∨ b.reason = "") ∧
        (findProduct (adjustStep userId db a product) b.productId).isSome := by
      intro b hb
      refine ⟨(hvalid b (List.mem_cons_of_mem a hb)).1, ?_⟩
      rw [findProduct_isSome_of_map (adjustStep userId db a product) db _ hgid
            (adjustStep_products userId db a product) b.productId]
      exact (hvalid b (List.mem_cons_of_mem a hb)).2
    have hmiss2 : findProduct (adjustStep userId db a product) bad.productId = none :=
      findProduct_none_of_map _ db _ hgid (adjustStep_products userId db a product)
        bad.productId hmiss
    obtain ⟨db2, rs, h1, h2⟩ := processAdjustments_prefix userId bad post hbad pre
      (adjustStep userId db a product) (acc ++ [adjResult a product]) hvalid2 hmiss2
    have hunf : ∀ rest : List Adjustment, processAdjustments userId db acc (a :: rest)
        = processAdjustments userId (adjustStep userId db a product)
            (acc ++ [adjResult a product]) rest := by
      intro rest
      show (if a.productId = "" ∨ a.reason = "" then
              (db, InventoryResponse.badRequest
                "Product ID, new stock, and reason are required for each adjustment")
            else
              match findProduct db a.productId with
              | none => (db, .notFound ("Product " ++ a.productId ++ " not found"))
              | some product =>
                processAdjustments userId (adjustStep userId db a product)
                  (acc ++ [adjResult a product]) rest)
          = processAdjustments userId (adjustStep userId db a product)
              (acc ++ [adjResult a product]) rest
      rw [if_neg haf, hp]
    refine ⟨db2, rs, by rw [hunf pre]; exact h1, ?_⟩
    rw [List.cons_append, hunf (pre ++ bad :: post)]
    exact h2

lemma updateTransaction_notifications (db : DB) (tid : String) (f : Transaction → Transaction) :
    (updateTransaction db tid f).notifications = db.notifications := rfl

/-- One status-check per-item side effect adds at most a low-stock
notification — never a payment-failed one. -/
lemma applyCheckSaleItem_notifications_sub (c nn : String) (db : DB) (i : TransactionItem) :
    ∀ n ∈ (applyCheckSaleItem c nn db i).notifications,
      n ∈ db.notifications ∨ n.isPaymentFailed = false := by
  intro n hn
  simp only [applyCheckSaleItem] at hn
  cases hf : findProduct db i.productId with
  | none => rw [hf] at hn; exact Or.inl hn
  | some product =>
    rw [hf] at hn
    simp only [] at hn
    by_cases hle : product.stock - i.quantity ≤ product.minStock
    · rw [if_pos hle, appendNotification_notifications, appendLog_notifications,
          setProductStock_notifications] at hn
      rcases List.mem_append.mp hn with h | h
      · exact Or.inl h
      · right
        rw [List.mem_singleton.mp h]
        rfl
    · rw [if_neg hle, appendLog_notifications, setProductStock_notifications] at hn
      exact Or.inl hn

lemma foldl_applyCheckSaleItem_notifications (c nn : String) :
    ∀ (items : List TransactionItem) (db : DB),
      ∀ n ∈ (items.foldl (applyCheckSaleItem c nn) db).notifications,
        n ∈ db.notifications ∨ n.isPaymentFailed = false
  | [], _ => fun _ hn => Or.inl hn
  | i :: items, db => by
    intro n hn
    rw [List.foldl_cons] at hn
    rcases foldl_applyCheckSaleItem_notifications c nn items
        (applyCheckSaleItem c nn db i) n hn with h | h
    · exact applyCheckSaleItem_notifications_sub c nn db i n h
    · exact Or.inr h

/-- The synchronous status check never creates a payment-failed
notification on any path. -/
lemma checkPaymentStatus_no_paymentFailed (db : DB) (tid s : String) :
    ∀ n ∈ (checkPaymentStatus db tid s).1.notifications,
      n ∈ db.notifications ∨ n.isPaymentFailed = false := by
  intro n hn
  unfold checkPaymentStatus at hn
  cases hft : findTransaction db tid with
  | none => rw [hft] at hn; exact Or.inl hn
  | some t =>
    rw [hft] at hn
    simp only [] at hn
    by_cases hp : t.paymentStatus = .PAID
    · rw [if_pos hp] at hn
      exact Or.inl hn
    · rw [if_neg hp] at hn
      by_cases hx : strTruthy t.xenditPaymentId = true
      · rw [if_pos hx] at hn
        by_cases hne : mapCheckStatus s ≠ t.paymentStatus
        · rw [if_pos hne] at hn
          by_cases hpaid : mapCheckStatus s = .PAID
          · rw [if_pos hpaid] at hn
            rw [appendNotification_notifications] at hn
            rcases List.mem_append.mp hn with h | h
            · rcases foldl_applyCheckSaleItem_notifications t.cashierId t.transactionNumber
                  t.items (updateTransaction db t.id (checkUpdate (mapCheckStatus s)))
                  n h with h1 | h1
              · rw [updateTransaction_notifications] at h1
                exact Or.inl h1
              · exact Or.inr h1
            · right
              rw [List.mem_singleton.mp h]
              rfl
          · rw [if_neg hpaid, updateTransaction_notifications] at hn
            exact Or.inl hn
        · rw [if_neg hne] at hn
          exact Or.inl hn
      · rw [if_neg hx] at hn
        exact Or.inl hn

/-- A webhook whose status maps to FAILED, on a resolved transaction,
appends exactly one payment-failed notification. -/
lemma xenditWebhook_failed_notifications (db : DB) (body : WebhookBody) (t : Transaction)
    (hlook : webhookLookup db body = some t)
    (hs : mapWebhookStatusOpt body.status = .FAILED) :
    (xenditWebhook db body).1.notifications
      = db.notifications ++ [.paymentFailed t.cashierId t.transactionNumber body.status] := by
  obtain ⟨eid, he, hz, hf⟩ := webhookLookup_elim hlook
  unfold xenditWebhook
  rw [he]
  simp only [if_neg hz, hf, hs]
  have hguard : ¬ (PaymentStatus.FAILED = PaymentStatus.PAID ∧ t.paymentStatus ≠ .PAID) := by
    intro hcon
    exact PaymentStatus.noConfusion hcon.1
  rw [if_neg hguard, if_pos trivial]
  rfl

/-! ## Claim theorems -/

/-- C1.  For a transaction that is not yet PAID, firing the same PAID
reconciliation trigger twice in sequence applies the PAID side effects
exactly once: the first delivery decrements every product's stock by the
total quantity the transaction's items request against it, and the second
delivery — finding the transaction already PAID — changes nothing at all
(no stock decrement, no log append, no notification).  Stated for both the
webhook trigger and the synchronous status check (the latter under the
schema's unique-product-id invariant, and with a JS-truthy stored gateway
payment id, without which the gateway is never consulted). -/
theorem duplicate_paid_trigger_side_effects_once :
    (∀ (db : DB) (body : WebhookBody) (t : Transaction),
      webhookLookup db body = some t →
      t.paymentStatus ≠ .PAID →
      body.status = some "PAID" →
      (xenditWebhook db body).1.products
        = db.products.map (fun p => { p with stock := p.stock - qtyFor t.items p.id }) ∧
      xenditWebhook (xenditWebhook db body).1 body = ((xenditWebhook db body).1, .received)) ∧
    (∀ (db : DB) (tid : String) (t : Transaction),
      ProductIdsNodup db →
      findTransaction db tid = some t →
      t.paymentStatus ≠ .PAID →
      strTruthy t.xenditPaymentId = true →
      (checkPaymentStatus db tid "PAID").1.products
        = db.products.map (fun p => { p with stock := p.stock - qtyFor t.items p.id }) ∧
      checkPaymentStatus (checkPaymentStatus db tid "PAID").1 tid "PAID"
        = ((checkPaymentStatus db tid "PAID").1, .ok .PAID)) := by
  constructor
  · intro db body t hlook hnp hstat
    obtain ⟨eid, he, hz, hf⟩ := webhookLookup_elim hlook
    have hs : mapWebhookStatusOpt body.status = .PAID := by rw [hstat]; decide
    have heq := xenditWebhook_found_paid db body eid t he hz hf hs hnp
    constructor
    · rw [heq]
      simp only [appendNotification_products]
      rw [foldl_applyWebhookSaleItem_products, updateTransaction_products]
    · have htr : (xenditWebhook db body).1.transactions = db.transactions.map
          (fun s => if s.id = t.id then webhookUpdate .PAID (jsOrStr body.id (some eid)) s else s) := by
        rw [heq]
        simp only [appendNotification_transactions]
        rw [foldl_applyWebhookSaleItem_transactions, updateTransaction_transactions]
      exact xenditWebhook_second_noop db body eid t he hz hs _ htr hf
  · intro db tid t hnd hfind hnp hx
    have heq := checkPaymentStatus_paid_eq db tid t hfind hnp hx
    have hnd1 : ProductIdsNodup (updateTransaction db t.id (checkUpdate .PAID)) := by
      unfold ProductIdsNodup
      rw [updateTransaction_products]
      exact hnd
    constructor
    · rw [heq]
      simp only [appendNotification_products]
      rw [foldl_applyCheckSaleItem_eq _ _ _ _ hnd1, foldl_applyWebhookSaleItem_products,
          updateTransaction_products]
    · have htid : t.id = tid := by
        have hp := List.find?_some hfind
        exact beq_iff_eq.mp hp
      have htr : (checkPaymentStatus db tid "PAID").1.transactions = db.transactions.map
          (fun s => if s.id = t.id then checkUpdate .PAID s else s) := by
        rw [heq]
        simp only [appendNotification_transactions]
        rw [foldl_applyCheckSaleItem_transactions, updateTransaction_transactions]
      have hfind2 : findTransaction (checkPaymentStatus db tid "PAID").1 tid
          = some (checkUpdate .PAID t) := by
        unfold findTransaction
        rw [htr, find?_map_invariant _ _ ?hg]
        case hg =>
          intro s
          by_cases hsid : s.id = t.id
          · rw [if_pos hsid]
            show ((checkUpdate .PAID s).id == tid) = (s.id == tid)
            rfl
          · rw [if_neg hsid]
        unfold findTransaction at hfind
        rw [hfind]
        show some (if t.id = t.id then checkUpdate .PAID t else t) = some (checkUpdate .PAID t)
        rw [if_pos rfl]
      exact checkPaymentStatus_already_paid _ tid "PAID" _ hfind2 rfl

/-- Witness for C1: both triggers, fired twice with gateway status "PAID"
on the sample pending transaction, decrement the stock once and leave the
state unchanged on the second delivery. -/
theorem duplicate_paid_trigger_side_effects_once_witness :
    ((xenditWebhook sampleDB samplePaidBody).1.products
        = sampleDB.products.map (fun p => { p with stock := p.stock - qtyFor sampleTxn.items p.id }) ∧
      xenditWebhook (xenditWebhook sampleDB samplePaidBody).1 samplePaidBody
        = ((xenditWebhook sampleDB samplePaidBody).1, .received)) ∧
    ((checkPaymentStatus sampleDB "t1" "PAID").1.products
        = sampleDB.products.map (fun p => { p with stock := p.stock - qtyFor sampleTxn.items p.id }) ∧
      checkPaymentStatus (checkPaymentStatus sampleDB "t1" "PAID").1 "t1" "PAID"
        = ((checkPaymentStatus sampleDB "t1" "PAID").1, .ok .PAID)) :=
  ⟨duplicate_paid_trigger_side_effects_once.1 sampleDB samplePaidBody sampleTxn
      (by decide) (by decide) (by decide),
   duplicate_paid_trigger_side_effects_once.2 sampleDB "t1" sampleTxn
      (show (sampleDB.products.map (fun p => p.id)).Nodup by decide)
      (by decide) (by decide) (by decide)⟩

/-- C3 counterexample: the transaction of `sampleDBPaid` is PAID, yet a
webhook carrying status "EXPIRED" moves its `paymentStatus` to EXPIRED —
PAID is not terminal under the webhook trigger. -/
theorem paid_overwritten_by_webhook_counterexample :
    (findTransaction sampleDBPaid "t1").map (fun t => t.paymentStatus) = some .PAID ∧
    (findTransaction (xenditWebhook sampleDBPaid sampleExpiredBody).1 "t1").map
        (fun t => t.paymentStatus) = some .EXPIRED := by decide

/-- C3 (amended).  PAID is terminal for the synchronous status check: a
check on a PAID transaction returns the current state unchanged.  The
webhook, by contrast, unconditionally overwrites `paymentStatus` with the
status mapped from the webhook body — so only a webhook whose status maps
to PAID preserves PAID — though the PAID side effects stay guarded
(products and logs are untouched). -/
theorem paid_terminal_only_for_status_check :
    (∀ (db : DB) (tid s : String) (t : Transaction),
      findTransaction db tid = some t → t.paymentStatus = .PAID →
      checkPaymentStatus db tid s = (db, .ok .PAID)) ∧
    (∀ (db : DB) (body : WebhookBody) (t : Transaction),
      webhookLookup db body = some t → t.paymentStatus = .PAID →
      (xenditWebhook db body).1.products = db.products ∧
      (xenditWebhook db body).1.logs = db.logs ∧
      ∃ eid, webhookExternalId body = some eid ∧
        (xenditWebhook db body).1.transactions
          = db.transactions.map (fun u =>
              if u.id = t.id
              then webhookUpdate (mapWebhookStatusOpt body.status) (jsOrStr body.id (some eid)) u
              else u)) := by
  constructor
  · exact fun db tid s t hf hp => checkPaymentStatus_already_paid db tid s t hf hp
  · intro db body t hlook hp
    obtain ⟨eid, he, hz, hf⟩ := webhookLookup_elim hlook
    obtain ⟨h1, h2, h3⟩ := xenditWebhook_found_already_paid db body eid t he hz hf hp
    exact ⟨h1, h2, eid, he, h3⟩

/-- Witness for the amended C3, at the PAID sample transaction: the check
is a no-op, and the EXPIRED webhook rewrites only the transaction row. -/
theorem paid_terminal_only_for_status_check_witness :
    (checkPaymentStatus sampleDBPaid "t1" "EXPIRED" = (sampleDBPaid, .ok .PAID)) ∧
    ((xenditWebhook sampleDBPaid sampleExpiredBody).1.products = sampleDBPaid.products ∧
     (xenditWebhook sampleDBPaid sampleExpiredBody).1.logs = sampleDBPaid.logs ∧
     ∃ eid, webhookExternalId sampleExpiredBody = some eid ∧
       (xenditWebhook sampleDBPaid sampleExpiredBody).1.transactions
         = sampleDBPaid.transactions.map (fun u =>
             if u.id = ({ sampleTxn with paymentStatus := .PAID } : Transaction).id
             then webhookUpdate (mapWebhookStatusOpt sampleExpiredBody.status)
               (jsOrStr sampleExpiredBody.id (some eid)) u
             else u)) :=
  ⟨paid_terminal_only_for_status_check.1 sampleDBPaid "t1" "EXPIRED"
      { sampleTxn with paymentStatus := .PAID } (by decide) (by decide),
   paid_terminal_only_for_status_check.2 sampleDBPaid sampleExpiredBody
      { sampleTxn with paymentStatus := .PAID } (by decide) (by decide)⟩

/-- C4 counterexample: on the same pending transaction, gateway status
"FAILED" drives the webhook to FAILED (with a payment-failed notification)
but leaves the synchronous check at PENDING with no notification — the two
triggers do not reach the same end state. -/
theorem failed_status_divergence_counterexample :
    mapWebhookStatus "FAILED" = .FAILED ∧
    mapCheckStatus "FAILED" = .PENDING ∧
    (findTransaction (xenditWebhook sampleDB sampleFailedBody).1 "t1").map
        (fun t => t.paymentStatus) = some .FAILED ∧
    (xenditWebhook sampleDB sampleFailedBody).1.notifications
        = [.paymentFailed "u1" "TXN-1" (some "FAILED")] ∧
    checkPaymentStatus sampleDB "t1" "FAILED" = (sampleDB, .ok .PENDING) := by decide

/-- C4 (amended).  The webhook and the synchronous check agree on "PAID"
and "SETTLED" (both map to PAID, and under unique product ids their
per-item PAID side effects coincide) and on "EXPIRED"; but the check maps
every other status — including "FAILED" and "SUCCEEDED" — to PENDING and
never emits a payment-failed notification on any path, while the webhook
maps "SUCCEEDED" to PAID and "FAILED" to FAILED, appending a
payment-failed notification. -/
theorem trigger_status_mapping_partial_agreement :
    (∀ s : String, s = "PAID" ∨ s = "SETTLED" →
      mapCheckStatus s = .PAID ∧ mapWebhookStatus s = .PAID) ∧
    (mapCheckStatus "EXPIRED" = .EXPIRED ∧ mapWebhookStatus "EXPIRED" = .EXPIRED) ∧
    (mapWebhookStatus "FAILED" = .FAILED ∧ mapWebhookStatus "SUCCEEDED" = .PAID) ∧
    (∀ s : String, s ≠ "PAID" → s ≠ "SETTLED" → s ≠ "EXPIRED" →
      mapCheckStatus s = .PENDING) ∧
    (∀ (c n : String) (db : DB) (i : TransactionItem), ProductIdsNodup db →
      applyCheckSaleItem c n db i = applyWebhookSaleItem c n db i) ∧
    (∀ (db : DB) (tid s : String),
      ∀ n ∈ (checkPaymentStatus db tid s).1.notifications,
        n ∈ db.notifications ∨ n.isPaymentFailed = false) ∧
    (∀ (db : DB) (body : WebhookBody) (t : Transaction),
      webhookLookup db body = some t → mapWebhookStatusOpt body.status = .FAILED →
      (xenditWebhook db body).1.notifications
        = db.notifications ++ [.paymentFailed t.cashierId t.transactionNumber body.status]) := by
  refine ⟨?_, ⟨by decide, by decide⟩, ⟨by decide, by decide⟩, ?_, ?_, ?_, ?_⟩
  · rintro s (rfl | rfl) <;> exact ⟨by decide, by decide⟩
  · intro s h1 h2 h3
    simp [mapCheckStatus, h1, h2, h3]
  · exact fun c n db i hnd => applyCheckSaleItem_eq c n db i hnd
  · exact fun db tid s => checkPaymentStatus_no_paymentFailed db tid s
  · exact fun db body t h1 h2 => xenditWebhook_failed_notifications db body t h1 h2

/-- Witness for the amended C4 at concrete inputs, covering the mapping
divergence, the side-effect agreement, the check's notification discipline
and the webhook's payment-failed notification. -/
theorem trigger_status_mapping_partial_agreement_witness :
    (mapCheckStatus "SETTLED" = .PAID ∧ mapWebhookStatus "SETTLED" = .PAID) ∧
    mapCheckStatus "FAILED" = .PENDING ∧
    applyCheckSaleItem "u1" "TXN-1" sampleDB sampleItem
      = applyWebhookSaleItem "u1" "TXN-1" sampleDB sampleItem ∧
    (Notification.paymentReceived "u1" "TXN-1" 30 ∈ sampleDB.notifications ∨
      (Notification.paymentReceived "u1" "TXN-1" 30).isPaymentFailed = false) ∧
    (xenditWebhook sampleDB sampleFailedBody).1.notifications
      = sampleDB.notifications
          ++ [.paymentFailed sampleTxn.cashierId sampleTxn.transactionNumber
                sampleFailedBody.status] :=
  ⟨trigger_status_mapping_partial_agreement.1 "SETTLED" (Or.inr rfl),
   trigger_status_mapping_partial_agreement.2.2.2.1 "FAILED"
      (by decide) (by decide) (by decide),
   trigger_status_mapping_partial_agreement.2.2.2.2.1 "u1" "TXN-1" sampleDB sampleItem
      (show (sampleDB.products.map (fun p => p.id)).Nodup by decide),
   trigger_status_mapping_partial_agreement.2.2.2.2.2.1 sampleDB "t1" "PAID"
      (Notification.paymentReceived "u1" "TXN-1" 30) (by decide),
   trigger_status_mapping_partial_agreement.2.2.2.2.2.2 sampleDB sampleFailedBody sampleTxn
      (by decide) (by decide)⟩

/-- C2.  A cash checkout over a valid non-empty item list creates a
transaction that is PAID immediately, decrements every referenced
product's stock by the quantities requested against it (so the total stock
decrease equals the sum of item quantities), and appends exactly one SALE
inventory-log entry per line item. -/
theorem cash_sale_paid_and_decremented (db : DB) (body : CreateBody) (txnId tn : String)
    (hm : body.paymentMethod = .CASH)
    (ht : ¬ body.totalAmount = 0) (hfin : ¬ body.finalAmount = 0)
    (hcz : ¬ body.cashierId = "") (hcu : db.users.contains body.cashierId)
    (hne : ¬ body.items = [])
    (hq : ∀ i ∈ body.items, 0 < i.quantity)
    (hex : ∀ i ∈ body.items, (findProduct db i.productId).isSome)
    (hnd : ProductIdsNodup db) :
    ∃ db2, createTransaction db body txnId tn
        = (db2, .created (createTxnRecord body txnId tn)) ∧
      (createTxnRecord body txnId tn).paymentStatus = .PAID ∧
      db2.products = db.products.map
        (fun p => { p with stock := p.stock - qtyForInput body.items p.id }) ∧
      (db.products.map (fun p => p.stock)).sum - (db2.products.map (fun p => p.stock)).sum
        = (body.items.map (fun i => i.quantity)).sum ∧
      db2.logs.length = db.logs.length + body.items.length ∧
      (∀ l ∈ db2.logs, l ∈ db.logs ∨ l.type = .SALE) ∧
      createTxnRecord body txnId tn ∈ db2.transactions := by
  have h1 : ¬(body.totalAmount = 0 ∨ body.finalAmount = 0 ∨ body.cashierId = ""
      ∨ body.items.isEmpty = true) := by
    simp only [List.isEmpty_iff]
    push_neg
    exact ⟨ht, hfin, hcz, hne⟩
  have hfq : body.items.find? (fun item => decide (item.quantity ≤ 0)) = none := by
    rw [List.find?_eq_none]
    intro i hi
    simp only [decide_eq_true_eq]
    have := hq i hi
    omega
  have hex1 : ∀ i ∈ body.items,
      (findProduct { db with transactions := db.transactions ++ [createTxnRecord body txnId tn] }
        i.productId).isSome := hex
  obtain ⟨e0, eprod, etrans, elen, emem⟩ :=
    applyCreateSaleItems_ok body.cashierId tn body.items
      { db with transactions := db.transactions ++ [createTxnRecord body txnId tn] } hex1
  have hcr := createTransaction_immediate db body txnId tn h1 hcu hfq (Or.inl hm) e0
  have hexE : ∀ i ∈ body.items, ∃ p ∈ db.products, p.id = i.productId := by
    intro i hi
    have hsome := hex i hi
    cases hfp : findProduct db i.productId with
    | none => rw [hfp] at hsome; simp at hsome
    | some q =>
      have hfp2 := hfp
      unfold findProduct at hfp2
      exact ⟨q, List.mem_of_find?_eq_some hfp2,
        beq_iff_eq.mp (List.find?_some (p := fun q : Product => q.id == i.productId) hfp2)⟩
  refine ⟨_, hcr, by simp [createTxnRecord, hm], ?_, ?_, ?_, ?_, ?_⟩
  · rw [appendNotification_products, eprod]
  · have hstock : (appendNotification
        (applyCreateSaleItems body.cashierId tn
          { db with transactions := db.transactions ++ [createTxnRecord body txnId tn] }
          body.items).1
        (.newOrder body.cashierId tn body.finalAmount)).products.map (fun p => p.stock)
        = db.products.map (fun p => p.stock - qtyForInput body.items p.id) := by
      rw [appendNotification_products, eprod, List.map_map]
      rfl
    rw [hstock, sum_map_sub_int, sum_qtyForInput db.products hnd body.items hexE]
    ring
  · rw [appendNotification_logs, elen]
  · intro l hl
    rw [appendNotification_logs] at hl
    exact emem l hl
  · rw [appendNotification_transactions, etrans]
    exact List.mem_append_right _ (by simp)

/-- Witness for C2 at the sample cash checkout. -/
theorem cash_sale_paid_and_decremented_witness :
    ∃ db2, createTransaction sampleDB sampleCashBody "t9" "TXN-9"
        = (db2, .created (createTxnRecord sampleCashBody "t9" "TXN-9")) ∧
      (createTxnRecord sampleCashBody "t9" "TXN-9").paymentStatus = .PAID ∧
      db2.products = sampleDB.products.map
        (fun p => { p with stock := p.stock - qtyForInput sampleCashBody.items p.id }) ∧
      (sampleDB.products.map (fun p => p.stock)).sum
          - (db2.products.map (fun p => p.stock)).sum
        = (sampleCashBody.items.map (fun i => i.quantity)).sum ∧
      db2.logs.length = sampleDB.logs.length + sampleCashBody.items.length ∧
      (∀ l ∈ db2.logs, l ∈ sampleDB.logs ∨ l.type = .SALE) ∧
      createTxnRecord sampleCashBody "t9" "TXN-9" ∈ db2.transactions :=
  cash_sale_paid_and_decremented sampleDB sampleCashBody "t9" "TXN-9"
    (by decide) (by decide) (by decide) (by decide) (by decide) (by decide)
    (by decide) (by decide)
    (show (sampleDB.products.map (fun p => p.id)).Nodup by decide)

/-- C5.  A create-transaction request with a Xendit (digital) payment
method and a body whose `paymentStatus` field reads "PAID" persists a
PENDING transaction (the stored status is derived from the method alone),
yet applies the per-item stock decrement at creation time; a later webhook
reporting PAID for that transaction decrements the same stock a second
time, because its only-once guard compares against the stored PENDING
status. -/
theorem xendit_paid_body_double_decrement (db : DB) (body : CreateBody) (txnId tn : String)
    (hm : isXenditPayment body.paymentMethod = true)
    (hpb : body.paymentStatus = some "PAID")
    (ht : ¬ body.totalAmount = 0) (hfin : ¬ body.finalAmount = 0)
    (hcz : ¬ body.cashierId = "") (hcu : db.users.contains body.cashierId)
    (hne : ¬ body.items = [])
    (hq : ∀ i ∈ body.items, 0 < i.quantity)
    (hex : ∀ i ∈ body.items, (findProduct db i.productId).isSome) :
    ∃ db2, createTransaction db body txnId tn
        = (db2, .created (createTxnRecord body txnId tn)) ∧
      (createTxnRecord body txnId tn).paymentStatus = .PENDING ∧
      db2.products = db.products.map
        (fun p => { p with stock := p.stock - qtyForInput body.items p.id }) ∧
      ∀ body2 : WebhookBody,
        webhookLookup db2 body2 = some (createTxnRecord body txnId tn) →
        body2.status = some "PAID" →
        (xenditWebhook db2 body2).1.products = db.products.map
          (fun p => { p with stock := p.stock - 2 * qtyForInput body.items p.id }) := by
  have hnotcash : ¬ body.paymentMethod = .CASH := by
    intro h
    rw [h] at hm
    simp [isXenditPayment] at hm
  have hPend : (createTxnRecord body txnId tn).paymentStatus = .PENDING := by
    simp [createTxnRecord, hnotcash]
  have h1 : ¬(body.totalAmount = 0 ∨ body.finalAmount = 0 ∨ body.cashierId = ""
      ∨ body.items.isEmpty = true) := by
    simp only [List.isEmpty_iff]
    push_neg
    exact ⟨ht, hfin, hcz, hne⟩
  have hfq : body.items.find? (fun item => decide (item.quantity ≤ 0)) = none := by
    rw [List.find?_eq_none]
    intro i hi
    simp only [decide_eq_true_eq]
    have := hq i hi
    omega
  have hex1 : ∀ i ∈ body.items,
      (findProduct { db with transactions := db.transactions ++ [createTxnRecord body txnId tn] }
        i.productId).isSome := hex
  obtain ⟨e0, eprod, etrans, elen, emem⟩ :=
    applyCreateSaleItems_ok body.cashierId tn body.items
      { db with transactions := db.transactions ++ [createTxnRecord body txnId tn] } hex1
  have hcr := createTransaction_immediate db body txnId tn h1 hcu hfq (Or.inr ⟨hm, hpb⟩) e0
  have hprod2 : (appendNotification
      (applyCreateSaleItems body.cashierId tn
        { db with transactions := db.transactions ++ [createTxnRecord body txnId tn] }
        body.items).1
      (.newOrder body.cashierId tn body.finalAmount)).products
      = db.products.map (fun p => { p with stock := p.stock - qtyForInput body.items p.id }) := by
    rw [appendNotification_products, eprod]
  refine ⟨_, hcr, hPend, hprod2, ?_⟩
  intro body2 hlook hstat
  obtain ⟨eid, he, hz, hf⟩ := webhookLookup_elim hlook
  have hs : mapWebhookStatusOpt body2.status = .PAID := by rw [hstat]; decide
  have hnp : (createTxnRecord body txnId tn).paymentStatus ≠ .PAID := by
    rw [hPend]
    decide
  have heq := xenditWebhook_found_paid _ body2 eid _ he hz hf hs hnp
  rw [heq]
  simp only [appendNotification_products]
  rw [foldl_applyWebhookSaleItem_products, updateTransaction_products, hprod2, List.map_map]
  refine List.map_congr_left (fun p hp => ?_)
  simp only [Function.comp_apply]
  have hq2 : qtyFor (createTxnRecord body txnId tn).items p.id = qtyForInput body.items p.id :=
    qtyFor_map_items body.items p.id
  show ({ p with stock := (p.stock - qtyForInput body.items p.id)
            - qtyFor (createTxnRecord body txnId tn).items p.id } : Product)
      = { p with stock := p.stock - 2 * qtyForInput body.items p.id }
  rw [hq2]
  congr 1
  omega

/-- Witness for C5 at the sample digital checkout plus its follow-up
webhook. -/
theorem xendit_paid_body_double_decrement_witness :
    ∃ db2, createTransaction sampleDB sampleXenditBody "t9" "TXN-9"
        = (db2, .created (createTxnRecord sampleXenditBody "t9" "TXN-9")) ∧
      (createTxnRecord sampleXenditBody "t9" "TXN-9").paymentStatus = .PENDING ∧
      db2.products = sampleDB.products.map
        (fun p => { p with stock := p.stock - qtyForInput sampleXenditBody.items p.id }) ∧
      ∀ body2 : WebhookBody,
        webhookLookup db2 body2 = some (createTxnRecord sampleXenditBody "t9" "TXN-9") →
        body2.status = some "PAID" →
        (xenditWebhook db2 body2).1.products = sampleDB.products.map
          (fun p => { p with stock := p.stock - 2 * qtyForInput sampleXenditBody.items p.id }) :=
  xendit_paid_body_double_decrement sampleDB sampleXenditBody "t9" "TXN-9"
    (by decide) (by decide) (by decide) (by decide) (by decide) (by decide)
    (by decide) (by decide) (by decide)

/-- C6 counterexample: a batch `[valid p1, invalid pX, valid p2]` does not
report a per-item result list — it returns a single not-found error; the
valid adjustment before the invalid entry is applied (p1's stock reaches
20) but the valid one after it is not (p2 stays at 4 instead of 9). -/
theorem inventory_batch_single_error_counterexample :
    (inventoryPOST sampleDB2 "u1" [adjGood1, adjBad, adjGood2]).2
        = .notFound "Product pX not found" ∧
    (findProduct (inventoryPOST sampleDB2 "u1" [adjGood1, adjBad, adjGood2]).1 "p1").map
        (fun p => p.stock) = some 20 ∧
    (findProduct (inventoryPOST sampleDB2 "u1" [adjGood1, adjBad, adjGood2]).1 "p2").map
        (fun p => p.stock) = some 4 := by decide

/-- C6 (amended).  The valid adjustments preceding the first invalid
productId apply (and would have produced per-item success results); the
invalid entry aborts the batch with a single not-found error response and
leaves the state exactly as after the prefix — entries after the invalid
one are not applied, and the per-item result list is only returned when
every entry succeeds. -/
theorem inventory_batch_aborts_at_first_invalid (db : DB) (userId : String)
    (pre : List Adjustment) (bad : Adjustment) (post : List Adjustment)
    (hvalid : ∀ a ∈ pre, ¬(a.productId = "" ∨ a.reason = "") ∧
      (findProduct db a.productId).isSome)
    (hbad : ¬(bad.productId = "" ∨ bad.reason = ""))
    (hmiss : findProduct db bad.productId = none) :
    ∃ db2 rs, processAdjustments userId db [] pre = (db2, .success rs) ∧
      inventoryPOST db userId (pre ++ bad :: post)
        = (db2, .notFound ("Product " ++ bad.productId ++ " not found")) := by
  obtain ⟨db2, rs, h1, h2⟩ := processAdjustments_prefix userId bad post hbad pre db [] hvalid hmiss
  refine ⟨db2, rs, h1, ?_⟩
  unfold inventoryPOST
  rw [if_neg ?hne, h2]
  case hne =>
    simp [List.isEmpty_iff]

/-- Witness for the amended C6 at the three-entry sample batch. -/
theorem inventory_batch_aborts_at_first_invalid_witness :
    ∃ db2 rs, processAdjustments "u1" sampleDB2 [] [adjGood1] = (db2, .success rs) ∧
      inventoryPOST sampleDB2 "u1" ([adjGood1] ++ adjBad :: [adjGood2])
        = (db2, .notFound ("Product " ++ adjBad.productId ++ " not found")) :=
  inventory_batch_aborts_at_first_invalid sampleDB2 "u1" [adjGood1] adjBad [adjGood2]
    (by decide) (by decide) (by decide)

/-- C8.  In each sale side-effect application (webhook, status check, and
creation), a low-stock notification is emitted exactly when the
post-decrement stock is at or below the product's `minStock`: hitting
`minStock` exactly notifies; landing one unit above does not. -/
theorem low_stock_boundary (c n : String) (db : DB) (item : TransactionItem)
    (product : Product) (hf : findProduct db item.productId = some product) :
    (product.stock - item.quantity = product.minStock →
      (applyWebhookSaleItem c n db item).notifications
        = db.notifications ++ [.lowStock c product.name (product.stock - item.quantity)] ∧
      (applyCheckSaleItem c n db item).notifications
        = db.notifications ++ [.lowStock c product.name (product.stock - item.quantity)] ∧
      (createSaleStep c n db
          { productId := item.productId, quantity := item.quantity,
            unitPrice := item.unitPrice, totalPrice := item.totalPrice } product).notifications
        = db.notifications ++ [.lowStock c product.name (product.stock - item.quantity)]) ∧
    (product.stock - item.quantity = product.minStock + 1 →
      (applyWebhookSaleItem c n db item).notifications = db.notifications ∧
      (applyCheckSaleItem c n db item).notifications = db.notifications ∧
      (createSaleStep c n db
          { productId := item.productId, quantity := item.quantity,
            unitPrice := item.unitPrice, totalPrice := item.totalPrice } product).notifications
        = db.notifications) := by
  constructor
  · intro h
    have hle : product.stock - item.quantity ≤ product.minStock := le_of_eq h
    refine ⟨?_, ?_, ?_⟩
    · simp only [applyWebhookSaleItem, hf]
      rw [if_pos hle, appendNotification_notifications, appendLog_notifications,
          decrementProductStock_notifications]
    · simp only [applyCheckSaleItem, hf]
      rw [if_pos hle, appendNotification_notifications, appendLog_notifications,
          setProductStock_notifications]
    · simp only [createSaleStep]
      rw [if_pos hle, appendNotification_notifications, appendLog_notifications,
          decrementProductStock_notifications]
  · intro h
    have hnle : ¬ product.stock - item.quantity ≤ product.minStock := by omega
    refine ⟨?_, ?_, ?_⟩
    · simp only [applyWebhookSaleItem, hf]
      rw [if_neg hnle, appendLog_notifications, decrementProductStock_notifications]
    · simp only [applyCheckSaleItem, hf]
      rw [if_neg hnle, appendLog_notifications, setProductStock_notifications]
    · simp only [createSaleStep]
      rw [if_neg hnle, appendLog_notifications, decrementProductStock_notifications]

/-- Witness for C8 at both sides of the boundary: quantity 3 lands the
sample product exactly on `minStock` and notifies; quantity 2 lands one
above and does not. -/
theorem low_stock_boundary_witness :
    ((applyWebhookSaleItem "u1" "TXN-1" boundaryDB boundaryItem).notifications
        = boundaryDB.notifications
            ++ [.lowStock "u1" boundaryProduct.name
                  (boundaryProduct.stock - boundaryItem.quantity)] ∧
      (applyCheckSaleItem "u1" "TXN-1" boundaryDB boundaryItem).notifications
        = boundaryDB.notifications
            ++ [.lowStock "u1" boundaryProduct.name
                  (boundaryProduct.stock - boundaryItem.quantity)] ∧
      (createSaleStep "u1" "TXN-1" boundaryDB
          { productId := boundaryItem.productId, quantity := boundaryItem.quantity,
            unitPrice := boundaryItem.unitPrice, totalPrice := boundaryItem.totalPrice }
          boundaryProduct).notifications
        = boundaryDB.notifications
            ++ [.lowStock "u1" boundaryProduct.name
                  (boundaryProduct.stock - boundaryItem.quantity)]) ∧
    ((applyWebhookSaleItem "u1" "TXN-1" boundaryDB boundaryItem2).notifications
        = boundaryDB.notifications ∧
      (applyCheckSaleItem "u1" "TXN-1" boundaryDB boundaryItem2).notifications
        = boundaryDB.notifications ∧
      (createSaleStep "u1" "TXN-1" boundaryDB
          { productId := boundaryItem2.productId, quantity := boundaryItem2.quantity,
            unitPrice := boundaryItem2.unitPrice, totalPrice := boundaryItem2.totalPrice }
          boundaryProduct).notifications
        = boundaryDB.notifications) :=
  ⟨(low_stock_boundary "u1" "TXN-1" boundaryDB boundaryItem boundaryProduct
      (by decide)).1 (by decide),
   (low_stock_boundary "u1" "TXN-1" boundaryDB boundaryItem2 boundaryProduct
      (by decide)).2 (by decide)⟩

/-- C10.  The reporting endpoint's low-stock figures — the overview
`lowStockCount` and the inventory-tab `lowStockProducts` — select active
products whose stock is at most the hardcoded threshold 5, not products
low by their own `minStock`: a store whose only product is below its own
`minStock` (stock 6 of a minimum 10) reports a low-stock count of zero. -/
theorem reports_low_stock_hardcoded_threshold :
    (∀ db : DB, overviewLowStockCount db
        = db.products.countP (fun p => decide (p.stock ≤ 5) && p.isActive)) ∧
    (∀ (db : DB) (cid : Option String) (p : Product),
      p ∈ inventoryLowStockProducts db cid ↔
        (p ∈ db.products ∧ p.stock ≤ 5 ∧ p.isActive = true ∧
          ∀ c, cid = some c → p.categoryId = c)) ∧
    (overviewLowStockCount minStockDivergenceDB = 0 ∧
      ∃ p ∈ minStockDivergenceDB.products, p.isActive = true ∧ p.stock ≤ p.minStock) := by
  refine ⟨?_, ?_, by decide, by decide⟩
  · intro db
    rw [overviewLowStockCount, List.countP_eq_length_filter]
  · intro db cid p
    unfold inventoryLowStockProducts
    rw [List.mem_filter]
    cases cid with
    | none => simp [and_assoc]
    | some c => simp [and_assoc, beq_iff_eq]

/-- C9.  The webhook trigger maps the gateway status vocabulary as follows
before updating the transaction: "PAID", "SETTLED", or "SUCCEEDED" map to
PAID; "FAILED" maps to FAILED; "EXPIRED" maps to EXPIRED; any other status
string maps to PENDING. -/
theorem webhook_status_vocabulary_mapping :
    mapWebhookStatus "PAID" = .PAID ∧
    mapWebhookStatus "SETTLED" = .PAID ∧
    mapWebhookStatus "SUCCEEDED" = .PAID ∧
    mapWebhookStatus "FAILED" = .FAILED ∧
    mapWebhookStatus "EXPIRED" = .EXPIRED ∧
    ∀ s : String, s ∉ ["PAID", "SETTLED", "SUCCEEDED", "FAILED", "EXPIRED"] →
      mapWebhookStatus s = .PENDING := by
  refine ⟨by decide, by decide, by decide, by decide, by decide, ?_⟩
  intro s hs
  simp only [List.mem_cons, List.mem_singleton, not_or] at hs
  obtain ⟨h1, h2, h3, h4, h5⟩ := hs
  simp [mapWebhookStatus, h1, h2, h3, h4, h5]

/-- Witness for C9: a status string outside the recognised vocabulary maps
to PENDING. -/
theorem webhook_status_vocabulary_mapping_witness :
    mapWebhookStatus "AWAITING_CAPTURE" = .PENDING :=
  webhook_status_vocabulary_mapping.2.2.2.2.2 "AWAITING_CAPTURE" (by decide)

/-- C7 counterexample: `sampleUnmatchedBody` carries an external id
matching no stored transaction (it parses no `txn-` prefix and equals no
stored `xenditPaymentId`), yet — because the body has no `id` field, which
turns the `{ xenditPaymentId: id }` OR-entry into a match-all filter —
the handler resolves the first stored transaction, marks it PAID and
decrements its product's stock, instead of mutating nothing. -/
theorem webhook_unmatched_still_mutates_counterexample :
    extractTxnId "no-such-ext" = none ∧
    (∀ t ∈ sampleDB.transactions, ¬ t.xenditPaymentId = some "no-such-ext") ∧
    sampleUnmatchedBody.id = none ∧
    (findTransaction (xenditWebhook sampleDB sampleUnmatchedBody).1 "t1").map
        (fun t => t.paymentStatus) = some .PAID ∧
    (findProduct (xenditWebhook sampleDB sampleUnmatchedBody).1 "p1").map
        (fun p => p.stock) = some 7 := by decide

/-- C7 (amended).  A webhook that resolves no stored transaction is
acknowledged with 200 `received: true` and mutates nothing; in particular,
when every stored transaction fails the OR-filter — by extracted id,
external id, and body id — the delivery is a soft no-op.  But when the
body's `id` field is absent, the `{ xenditPaymentId: id }` OR-entry
degenerates to a match-all filter, so on a non-empty transaction table the
handler resolves, and processes, the first stored transaction even though
the external id matches nothing. -/
theorem webhook_soft_noop_only_when_unresolved :
    (∀ (db : DB) (body : WebhookBody),
      webhookLookup db body = none → xenditWebhook db body = (db, .received)) ∧
    (∀ (db : DB) (body : WebhookBody) (eid : String),
      webhookExternalId body = some eid → ¬ eid = "" →
      (∀ t ∈ db.transactions, webhookMatches (extractTxnId eid) eid body.id t = false) →
      xenditWebhook db body = (db, .received)) := by
  have hnoop : ∀ (db : DB) (body : WebhookBody),
      webhookLookup db body = none → xenditWebhook db body = (db, .received) := by
    intro db body h
    unfold webhookLookup at h
    unfold xenditWebhook
    cases he : webhookExternalId body with
    | none => rfl
    | some eid =>
      rw [he] at h
      simp only at h ⊢
      by_cases hz : eid = ""
      · rw [if_pos hz]
      · rw [if_neg hz] at h ⊢
        rw [h]
  refine ⟨hnoop, ?_⟩
  intro db body eid he hz hall
  apply hnoop
  unfold webhookLookup
  rw [he]
  simp only []
  rw [if_neg hz]
  unfold findWebhookTransaction
  exact List.find?_eq_none.mpr (fun t ht => by simp [hall t ht])

/-- Witness for the amended C7: a webhook whose external id and truthy
body id both match nothing leaves the sample store untouched. -/
theorem webhook_soft_noop_only_when_unresolved_witness :
    xenditWebhook sampleDB sampleUnmatchedIdBody = (sampleDB, .received) :=
  webhook_soft_noop_only_when_unresolved.2 sampleDB sampleUnmatchedIdBody "no-such-ext"
    (by decide) (by decide) (by decide)

end Tokoku
